import Mathlib

/-!
Verification of the Ledger and Transfer Execution Engine of the
marshalcore/eliteSolution repository against its natural-language
specification.

The definitions below are a shallow embedding of the Python source:

* `src/app/api/transactions.py` — the orchestrator endpoints
  (`confirm_transfer`, `confirm_withdrawal`, `create_deposit`,
  `confirm_advanced_withdrawal`, `confirm_crypto_withdrawal`), the KYC gate
  `check_kyc_for_transaction` and the fee helpers
  (`calculate_withdrawal_fees`, `calculate_crypto_fees`, `get_network_fee`,
  `validate_crypto_address`);
* `src/app/services/otp_service.py` — the one-time-challenge issuer
  (`generate_otp`, `verify_otp`);
* `src/app/services/transfers.py` — the `internal_transfer` ledger helper;
* `src/app/services/transaction_service.py` — `check_kyc_requirement`;
* `src/app/schemas/transaction.py` — the public request schemas.

Modelling conventions:

* Money amounts are integer minor units (`Int`); Python float literals and
  float arithmetic inside the fee calculator are modelled exactly over `ℚ`,
  with Python `int(...)` modelled as truncation toward zero (`py_int`).
  None of the settled claims depends on IEEE double rounding.
* Database state is an explicit record of lists; a SQLAlchemy `query.first()`
  is `List.find?` in insertion order, a row `UPDATE` is a `List.map`.
  `db.commit()` is the only durability point: every endpoint returns, next to
  its result, the last committed state, so a Python exception raised midway
  (rolled back by the `get_db` dependency, which closes without committing)
  leaves the state committed by the latest earlier `db.commit()`.
* Python runtime failures are values of `PyErr`: `HTTPException` keeps its
  status code and detail string, and `AttributeError`, `TypeError` and
  `UnboundLocalError` are explicit constructors, because the source does hit
  them (`transfer_in.extra_data` and `deposit_in.extra_data` on schemas whose
  only such field is named `metadata`; the unbound `fixed_fee` in the crypto
  branch of `calculate_withdrawal_fees`; `**withdraw_data.metadata` when
  `metadata` is `None`).
* Lock acquisition (`with_for_update`), balance re-checks, in-session
  debits/credits and challenge issuance are additionally recorded as an
  event trace (`Ev`) so that ordering properties can be stated.
* Randomness (`generate_otp_code`) and wall-clock time (`datetime.now`)
  are passed in as explicit parameters.
* String-valued annotation entries of a transaction record (descriptions,
  notes, display names) and outbound e-mail delivery are not modelled: no
  claim mentions them and the spec declares delivery an external
  collaborator.
-/

/-- Runtime errors of the embedded Python code: `HTTPException` with its
status code and detail, plus the three interpreter-level errors the source
can actually raise. -/
inductive PyErr where
  | httpExc (status : Nat) (detail : String)
  | attrErr (attr : String)
  | typeErr (msg : String)
  | unboundLocal (var : String)
deriving DecidableEq, Repr

/-- HTTP status a raised error surfaces as: `HTTPException` keeps its code,
any uncaught interpreter error becomes a 500 response. -/
def PyErr.http_status : PyErr → Nat
  | .httpExc s _ => s
  | _ => 500

/-- `OTPPurpose` enum from src/app/models/otp.py. -/
inductive OTPPurpose where
  | registration
  | login
  | transfer
  | withdrawal
  | password_reset
  | kyc_verification
  | pin_reset
  | admin_registration
  | admin_login
deriving DecidableEq, Repr

/-- A row of the `otps` table (src/app/models/otp.py). -/
structure OTPR where
  user_id : Nat
  code : String
  purpose : OTPPurpose
  is_used : Bool
  used_at : Option Int
  created_at : Int
  expires_at : Int
deriving DecidableEq, Repr

/-- A row of the `accounts` table (src/app/models/account.py). -/
structure AccountR where
  id : Nat
  user_id : Nat
  account_number : String
  balance_cents : Int
  is_active : Bool
deriving DecidableEq, Repr

/-- The KYC-relevant part of a row of the `users` table. -/
structure UserR where
  id : Nat
  kyc_status : String
  kyc_rejection_reason : Option String
deriving DecidableEq, Repr

/-- The fields of a `withdrawal_accounts` row read by the confirm flow. -/
structure WithdrawalAccountR where
  id : Nat
  user_id : Nat
  account_type : String
  provider : String
  is_verified : Bool
deriving DecidableEq, Repr

/-- A row of the `transactions` table (src/app/models/transaction.py);
`extra_data` keeps the numeric annotation entries (balances before/after and
similar), string-valued entries are not modelled. -/
structure TxnR where
  from_account_id : Option Nat
  to_account_id : Option Nat
  amount_cents : Int
  type : String
  status : String
  method : String
  extra_data : List (String × Int)
deriving DecidableEq, Repr

/-- The committed database state. -/
structure DBState where
  users : List UserR
  accounts : List AccountR
  otps : List OTPR
  withdrawal_accounts : List WithdrawalAccountR
  txns : List TxnR
deriving DecidableEq, Repr

/-- Observable steps of an endpoint execution, recorded in order:
row-lock acquisition (`with_for_update`), a balance re-check comparison,
an in-session debit or credit, and challenge issuance. -/
inductive Ev where
  | lockAcq (acc_id : Nat)
  | balCheck (acc_id : Nat)
  | debit (acc_id : Nat) (amount_cents : Int)
  | credit (acc_id : Nat) (amount_cents : Int)
  | otpIssued (user_id : Nat) (purpose : OTPPurpose)
deriving DecidableEq, Repr

/-- Account identifiers of the lock-acquisition events of a trace, in order. -/
def lock_ids : List Ev → List Nat
  | [] => []
  | .lockAcq a :: rest => a :: lock_ids rest
  | _ :: rest => lock_ids rest

/-- Account identifiers of the balance re-check events of a trace, in order. -/
def check_ids : List Ev → List Nat
  | [] => []
  | .balCheck a :: rest => a :: check_ids rest
  | _ :: rest => check_ids rest

/-- True when the trace contains a challenge-issuance event. -/
def issues_challenge (evs : List Ev) : Bool :=
  evs.any fun e => match e with
    | .otpIssued _ _ => true
    | _ => false

/-- Python `int(...)` on a rational: truncation toward zero. -/
def py_int (q : ℚ) : Int := Int.tdiv q.num (q.den : Int)

/-! ## Request schemas (src/app/schemas/transaction.py and the request
models declared inline in src/app/api/transactions.py) -/

/-- `DepositCreate` — fields exactly as in src/app/schemas/transaction.py:
`account_id`, `amount_cents`, `method`, `metadata`. There is no field named
`extra_data`. -/
structure DepositCreate where
  account_id : Nat
  amount_cents : Int
  method : String
  metadata : Option (List (String × Int))
deriving DecidableEq, Repr

/-- `WithdrawCreate` from src/app/schemas/transaction.py. -/
structure WithdrawCreate where
  account_id : Nat
  amount_cents : Int
  method : String
deriving DecidableEq, Repr

/-- `TransferCreate` — fields exactly as in src/app/schemas/transaction.py:
`from_account_id`, `to_account_number`, `to_bank_code`, `amount_cents`,
`metadata`. There is no field named `extra_data`. -/
structure TransferCreate where
  from_account_id : Nat
  to_account_number : String
  to_bank_code : Option String
  amount_cents : Int
  metadata : Option (List (String × Int))
deriving DecidableEq, Repr

/-- `AdvancedWithdrawCreate`, declared inline in src/app/api/transactions.py. -/
structure AdvancedWithdrawCreate where
  amount_cents : Int
  account_id : Nat
  currency : String
  metadata : Option (List (String × Int))
deriving DecidableEq, Repr

/-- `CryptoWithdrawCreate`, declared inline in src/app/api/transactions.py. -/
structure CryptoWithdrawCreate where
  amount_cents : Int
  cryptocurrency : String
  wallet_address : String
  wallet_network : String
deriving DecidableEq, Repr

/-- Python attribute lookup `transfer_in.extra_data` (transactions.py lines
956 and 1001): the pydantic `TransferCreate` schema defines `metadata` and no
field named `extra_data`, so this lookup raises `AttributeError`. -/
def TransferCreate.extra_data (_r : TransferCreate) :
    Except PyErr (Option (List (String × Int))) :=
  .error (.attrErr "extra_data")

/-- Python attribute lookup `deposit_in.extra_data` (transactions.py lines
1197 and 1198): `DepositCreate` defines `metadata` and no field named
`extra_data`, so this lookup raises `AttributeError`. -/
def DepositCreate.extra_data (_r : DepositCreate) :
    Except PyErr (Option (List (String × Int))) :=
  .error (.attrErr "extra_data")

/-! ## Fee calculator (src/app/api/transactions.py) -/

/-- Fee breakdown returned by the fee helpers; `fixed_or_network_fee_cents`
models `fixed_fee_cents` in `calculate_withdrawal_fees` and
`network_fee_cents` in `calculate_crypto_fees`. -/
structure FeeParts where
  percentage_fee_cents : Int
  fixed_or_network_fee_cents : Int
  total_fee_cents : Int
  percentage_rate : ℚ
deriving DecidableEq, Repr

/-- `calculate_withdrawal_fees(amount_cents, account_type)`. In the
`"crypto"` branch the source binds `percentage_fee`, `network_fee` and
`total_fee` but the returned dict reads the local variable `fixed_fee`,
which is never assigned in that branch, so Python raises
`UnboundLocalError` before any dict is produced. -/
def calculate_withdrawal_fees (amount_cents : Int) (account_type : String) :
    Except PyErr FeeParts :=
  let amount : ℚ := (amount_cents : ℚ) / 100
  if account_type == "crypto" then
    .error (.unboundLocal "fixed_fee")
  else if account_type == "bank" then
    let percentage_fee := amount * (0.015 : ℚ)
    let fixed_fee : ℚ := 2
    let total_fee := percentage_fee + fixed_fee
    .ok { percentage_fee_cents := py_int (percentage_fee * 100)
        , fixed_or_network_fee_cents := py_int (fixed_fee * 100)
        , total_fee_cents := py_int (total_fee * 100)
        , percentage_rate := 1.5 }
  else
    let percentage_fee := amount * (0.02 : ℚ)
    let fixed_fee : ℚ := 1
    let total_fee := percentage_fee + fixed_fee
    .ok { percentage_fee_cents := py_int (percentage_fee * 100)
        , fixed_or_network_fee_cents := py_int (fixed_fee * 100)
        , total_fee_cents := py_int (total_fee * 100)
        , percentage_rate := 2 }

/-- The per-asset percentage table of `calculate_crypto_fees`, default 2
percent. -/
def crypto_fee_rate (c : String) : ℚ :=
  if c == "BTC" then 0.02
  else if c == "ETH" then 0.015
  else if c == "USDT" then 0.01
  else if c == "USDC" then 0.01
  else if c == "BNB" then 0.008
  else 0.02

/-- `get_network_fee(cryptocurrency)`, default 10.00. -/
def get_network_fee (c : String) : ℚ :=
  if c == "BTC" then 15
  else if c == "ETH" then 8
  else if c == "USDT" then 5
  else if c == "USDC" then 5
  else if c == "BNB" then 1
  else 10

/-- `calculate_crypto_fees(amount_cents, cryptocurrency)`: total on every
input. -/
def calculate_crypto_fees (amount_cents : Int) (crypto : String) : FeeParts :=
  let amount : ℚ := (amount_cents : ℚ) / 100
  let rate := crypto_fee_rate crypto
  let percentage_fee := amount * rate
  let network := get_network_fee crypto
  let total_fee := percentage_fee + network
  { percentage_fee_cents := py_int (percentage_fee * 100)
  , fixed_or_network_fee_cents := py_int (network * 100)
  , total_fee_cents := py_int (total_fee * 100)
  , percentage_rate := rate * 100 }

/-! ## One-time-challenge issuer (src/app/services/otp_service.py) -/

/-- The row filter of `verify_otp`: same user, equal code, same purpose,
not yet used, expiry strictly in the future. -/
def otp_live_match (uid : Nat) (code : String) (p : OTPPurpose) (now : Int)
    (o : OTPR) : Bool :=
  o.user_id == uid && o.code == code && o.purpose == p &&
    o.is_used == false && decide (now < o.expires_at)

/-- Mark the first row satisfying the filter as used (the `.first()` row the
UPDATE of `verify_otp` touches), stamping `used_at`. -/
def mark_first_used (now : Int) (pred : OTPR → Bool) : List OTPR → List OTPR
  | [] => []
  | o :: rest =>
    if pred o then { o with is_used := true, used_at := some now } :: rest
    else o :: mark_first_used now pred rest

/-- `verify_otp(user_id, code, purpose, db)`: true and mark the matching row
used iff a not-used, not-expired row with an equal code exists for
(user, purpose); otherwise false with no state change. Commits on success. -/
def verify_otp (uid : Nat) (code : String) (p : OTPPurpose) (now : Int)
    (db : DBState) : Bool × DBState :=
  match db.otps.find? (otp_live_match uid code p now) with
  | some _ =>
      (true, { db with otps := mark_first_used now (otp_live_match uid code p now) db.otps })
  | none => (false, db)

/-- The bulk UPDATE of `generate_otp`: any not-used row for the same
(user, purpose) is marked used; every other row is untouched. -/
def invalidate_prior (uid : Nat) (p : OTPPurpose) (o : OTPR) : OTPR :=
  if o.user_id == uid && o.purpose == p && o.is_used == false then
    { o with is_used := true }
  else o

/-- The fresh challenge row `generate_otp` persists:
expiry `OTP_EXPIRY_MINUTES = 10` minutes from now. -/
def fresh_otp (uid : Nat) (p : OTPPurpose) (code : String) (now : Int) : OTPR :=
  { user_id := uid, code := code, purpose := p, is_used := false
  , used_at := none, created_at := now, expires_at := now + 600 }

/-- `generate_otp(user_id, purpose, db)`; the random six-digit code is passed
in as a parameter. Invalidates all prior unconsumed challenges of the pair,
persists the fresh one, returns the plaintext code. -/
def generate_otp (uid : Nat) (p : OTPPurpose) (code : String) (now : Int)
    (db : DBState) : String × DBState :=
  (code, { db with otps := db.otps.map (invalidate_prior uid p) ++ [fresh_otp uid p code now] })

/-- Challenges of the pair (user, purpose) still unconsumed in a state. -/
def unused_for (uid : Nat) (p : OTPPurpose) (db : DBState) : List OTPR :=
  db.otps.filter fun o => o.user_id == uid && o.purpose == p && o.is_used == false

/-! ## KYC gate (src/app/api/transactions.py `check_kyc_for_transaction` and
src/app/services/transaction_service.py `TransactionService.check_kyc_requirement`) -/

/-- Modelled from the spec: `kyc_service.verify_user_kyc`, called first by
`check_kyc_for_transaction` (transactions.py line 129), is missing — the
`KYCService` class in src/app/services/kyc_service.py defines no such method
and no other definition exists in the repository. The spec treats the
KYC/compliance gate as an external collaborator consumed through a narrow
read-only contract (`can_transact(account) -> bool` plus a per-account
ceiling), so the consistency verification plus `db.refresh(user)` is
modelled as the identity on the user record. -/
def verify_user_kyc (u : UserR) : UserR := u

/-- The `error_messages` lookup of `check_kyc_for_transaction`, with the
f-string interpolation written out. -/
def kyc_error_message (u : UserR) (operation : String) : String :=
  if u.kyc_status == "pending" then
    "KYC verification required. Please complete your KYC verification to perform " ++ operation ++ "."
  else if u.kyc_status == "submitted" then
    "KYC verification in progress. Your documents are under review. You cannot perform " ++ operation ++ " until verification is complete."
  else if u.kyc_status == "rejected" then
    "KYC verification rejected. " ++ (u.kyc_rejection_reason.getD "Please contact support or resubmit your documents.")
  else
    "KYC verification required for " ++ operation ++ "."

/-- The `transaction_limits` dict of `check_kyc_for_transaction`
(10000 for "verified", 50000 for "enhanced"), `dict.get` default 0. -/
def transaction_limit (status : String) : ℚ :=
  if status == "verified" then 10000
  else if status == "enhanced" then 50000
  else 0

/-- Rendering of the Python format `f"${user_limit:,.2f}"` at the values the
limit tables can produce. -/
def fmt_limit (q : ℚ) : String :=
  if q == 10000 then "10,000.00"
  else if q == 50000 then "50,000.00"
  else "0.00"

/-- Detail of the over-limit rejection of both KYC gates. -/
def limit_exceeded_detail (lim : ℚ) : String :=
  "Transaction amount exceeds your limit. Maximum allowed: $" ++ fmt_limit lim ++ ". Please contact support for higher limits."

/-- `check_kyc_for_transaction(user, operation, amount)`: 403 unless
`kyc_status == "verified"`, then 403 when a truthy amount exceeds the limit
of the (already known to be "verified") status. -/
def check_kyc_for_transaction (user : UserR) (operation : String)
    (amount : Option ℚ) : Except PyErr Unit :=
  let user := verify_user_kyc user
  if user.kyc_status != "verified" then
    .error (.httpExc 403 (kyc_error_message user operation))
  else
    match amount with
    | none => .ok ()
    | some a =>
      if a != 0 then
        let user_limit := transaction_limit user.kyc_status
        if a > user_limit then .error (.httpExc 403 (limit_exceeded_detail user_limit))
        else .ok ()
      else .ok ()

/-- The `transaction_limits` dict of `TransactionService` (zeros for
pending/submitted/rejected), `dict.get` default 0. -/
def service_transaction_limit (status : String) : ℚ :=
  if status == "pending" then 0
  else if status == "submitted" then 0
  else if status == "rejected" then 0
  else if status == "verified" then 10000
  else if status == "enhanced" then 50000
  else 0

/-- The `error_messages` lookup of `TransactionService.check_kyc_requirement`. -/
def service_kyc_error_message (u : UserR) : String :=
  if u.kyc_status == "pending" then
    "KYC verification required. Please complete your KYC verification to perform transactions."
  else if u.kyc_status == "submitted" then
    "KYC verification in progress. Your documents are under review. You cannot perform transactions until verification is complete."
  else if u.kyc_status == "rejected" then
    "KYC verification rejected. " ++ (u.kyc_rejection_reason.getD "Please contact support or resubmit your documents.")
  else
    "KYC verification required."

/-- `TransactionService.check_kyc_requirement(user, amount)`. -/
def check_kyc_requirement (user : UserR) (amount : Option ℚ) :
    Except PyErr Bool :=
  if user.kyc_status != "verified" then
    .error (.httpExc 403 (service_kyc_error_message user))
  else
    match amount with
    | none => .ok true
    | some a =>
      if a != 0 then
        let user_limit := service_transaction_limit user.kyc_status
        if a > user_limit then .error (.httpExc 403 (limit_exceeded_detail user_limit))
        else .ok true
      else .ok true

/-! ## Crypto address validation (src/app/api/transactions.py
`validate_crypto_address`) — each regex written out as the character-class
and length checks it denotes, with the dollar anchor read as end of string. -/

/-- Closed character range test. -/
def char_between (lo hi c : Char) : Bool := decide (lo ≤ c) && decide (c ≤ hi)

/-- Character class `[a-fA-F0-9]`. -/
def is_hex_char (c : Char) : Bool :=
  char_between 'a' 'f' c || char_between 'A' 'F' c || char_between '0' '9' c

/-- Character class `[A-Za-z1-9]`. -/
def is_trc_char (c : Char) : Bool :=
  char_between 'A' 'Z' c || char_between 'a' 'z' c || char_between '1' '9' c

/-- Character class `[a-km-zA-HJ-NP-Z1-9]`. -/
def is_b58_char (c : Char) : Bool :=
  char_between 'a' 'k' c || char_between 'm' 'z' c || char_between 'A' 'H' c ||
    char_between 'J' 'N' c || char_between 'P' 'Z' c || char_between '1' '9' c

/-- Character class `[a-z0-9]`. -/
def is_bech32_char (c : Char) : Bool :=
  char_between 'a' 'z' c || char_between '0' '9' c

/-- `validate_crypto_address(address, network)`; an unknown network has no
pattern and yields false. -/
def validate_crypto_address (address network : String) : Bool :=
  let cs := address.toList
  if network == "ERC20" || network == "BEP20" then
    match cs with
    | '0' :: 'x' :: rest => rest.length == 40 && rest.all is_hex_char
    | _ => false
  else if network == "TRC20" then
    match cs with
    | 'T' :: rest => rest.length == 33 && rest.all is_trc_char
    | _ => false
  else if network == "BTC" then
    (match cs with
     | c :: rest =>
        (c == '1' || c == '3') && decide (25 ≤ rest.length) &&
          decide (rest.length ≤ 34) && rest.all is_b58_char
     | [] => false) ||
    (match cs with
     | 'b' :: 'c' :: '1' :: rest =>
        decide (39 ≤ rest.length) && decide (rest.length ≤ 59) &&
          rest.all is_bech32_char
     | _ => false)
  else if network == "LTC" then
    match cs with
    | c :: rest =>
        (c == 'L' || c == 'M' || c == '3') && decide (26 ≤ rest.length) &&
          decide (rest.length ≤ 33) && rest.all is_b58_char
    | _ => false
  else false

/-! ## Ledger helpers -/

/-- In-session mutation of one account balance through the ORM object:
`account.balance_cents = f(account.balance_cents)`. -/
def adjust_balance (accs : List AccountR) (aid : Nat) (f : Int → Int) :
    List AccountR :=
  accs.map fun a => if a.id == aid then { a with balance_cents := f a.balance_cents } else a

/-- Balance of an account in a list of rows (0 when absent, which no settled
statement relies on). -/
def get_balance (accs : List AccountR) (aid : Nat) : Int :=
  ((accs.find? fun a => a.id == aid).map fun a => a.balance_cents).getD 0

/-! ## Orchestrator endpoints (src/app/api/transactions.py). Each function
takes the authenticated user, the request body, the submitted challenge code,
the current time and the committed state, and returns the outcome, the last
committed state, and the event trace. -/

/-- Result triple of an endpoint call. -/
abbrev EndpointResult := Except PyErr Unit × DBState × List Ev

/-- The recipient eligibility check of the internal branch of
`confirm_transfer`: a recipient owned by another user must be KYC verified. -/
def recipient_blocked (db : DBState) (user : UserR) (to_acc : AccountR) : Bool :=
  if to_acc.user_id != user.id then
    match db.users.find? (fun u => u.id == to_acc.user_id) with
    | some r => r.kyc_status != "verified"
    | none => false
  else false

/-- `POST /transfer/confirm` (`confirm_transfer`). The internal branch ends,
after the in-session debit and credit, in the record construction that
evaluates `transfer_in.extra_data` — an `AttributeError`, so the session is
rolled back and the state committed by `verify_otp` is what endures. The
external branch reaches the same attribute lookup after its unlocked balance
check and in-session debit. -/
def confirm_transfer (user : UserR) (req : TransferCreate) (otp_code : String)
    (now : Int) (db : DBState) : EndpointResult :=
  let amount_dollars : ℚ := (req.amount_cents : ℚ) / 100
  match check_kyc_for_transaction user "transfer" (some amount_dollars) with
  | .error e => (.error e, db, [])
  | .ok _ =>
  match verify_otp user.id otp_code OTPPurpose.transfer now db with
  | (false, db1) => (.error (.httpExc 400 "Invalid or expired OTP"), db1, [])
  | (true, db1) =>
  match db1.accounts.find? (fun a => a.id == req.from_account_id && a.user_id == user.id) with
  | none => (.error (.httpExc 404 "Source account not found"), db1, [])
  | some from_acc =>
  match db1.accounts.find? (fun a => a.account_number == req.to_account_number) with
  | some to_acc =>
    if recipient_blocked db1 user to_acc then
      (.error (.httpExc 400 "Recipient account is not KYC verified. Transfers can only be made to verified accounts."), db1, [])
    else
      let first_id := if from_acc.id ≤ to_acc.id then from_acc.id else to_acc.id
      let second_id := if from_acc.id ≤ to_acc.id then to_acc.id else from_acc.id
      let evs1 := [Ev.lockAcq first_id, Ev.lockAcq second_id, Ev.balCheck from_acc.id]
      if from_acc.balance_cents < req.amount_cents then
        (.error (.httpExc 400 "Insufficient funds"), db1, evs1)
      else
        let from_before := from_acc.balance_cents
        let to_before := to_acc.balance_cents
        let accs1 := adjust_balance db1.accounts from_acc.id (fun b => b - req.amount_cents)
        let accs2 := adjust_balance accs1 to_acc.id (fun b => b + req.amount_cents)
        let evs2 := evs1 ++ [Ev.debit from_acc.id req.amount_cents, Ev.credit to_acc.id req.amount_cents]
        match req.extra_data with
        | .error e => (.error e, db1, evs2)
        | .ok md =>
          let txn : TxnR :=
            { from_account_id := some from_acc.id
            , to_account_id := some to_acc.id
            , amount_cents := req.amount_cents
            , type := "transfer", status := "completed", method := "internal"
            , extra_data :=
                [("from_balance_before", from_before), ("to_balance_before", to_before),
                 ("from_balance_after", get_balance accs2 from_acc.id),
                 ("to_balance_after", get_balance accs2 to_acc.id)] ++ md.getD [] }
          (.ok (), { db1 with accounts := accs2, txns := db1.txns ++ [txn] }, evs2)
  | none =>
    let evs1 := [Ev.balCheck from_acc.id]
    if from_acc.balance_cents < req.amount_cents then
      (.error (.httpExc 400 "Insufficient funds"), db1, evs1)
    else
      let accs1 := adjust_balance db1.accounts from_acc.id (fun b => b - req.amount_cents)
      let evs2 := evs1 ++ [Ev.debit from_acc.id req.amount_cents]
      match req.extra_data with
      | .error e => (.error e, db1, evs2)
      | .ok md =>
        let txn : TxnR :=
          { from_account_id := some from_acc.id, to_account_id := none
          , amount_cents := req.amount_cents
          , type := "transfer", status := "pending", method := "external"
          , extra_data :=
              [("balance_before", from_acc.balance_cents),
               ("balance_after", from_acc.balance_cents - req.amount_cents)] ++ md.getD [] }
        (.ok (), { db1 with accounts := accs1, txns := db1.txns ++ [txn] }, evs2)

/-- `POST /withdraw/confirm` (`confirm_withdrawal`): KYC gate, challenge
verification, row lock, balance re-check under the lock, debit of the bare
amount, record committed directly as `"completed"`. -/
def confirm_withdrawal (user : UserR) (req : WithdrawCreate) (otp_code : String)
    (now : Int) (db : DBState) : EndpointResult :=
  let amount_dollars : ℚ := (req.amount_cents : ℚ) / 100
  match check_kyc_for_transaction user "withdrawal" (some amount_dollars) with
  | .error e => (.error e, db, [])
  | .ok _ =>
  match verify_otp user.id otp_code OTPPurpose.withdrawal now db with
  | (false, db1) => (.error (.httpExc 400 "Invalid or expired OTP"), db1, [])
  | (true, db1) =>
  match db1.accounts.find? (fun a => a.id == req.account_id && a.user_id == user.id) with
  | none => (.error (.httpExc 404 "Account not found"), db1, [])
  | some acc =>
    let evs1 := [Ev.lockAcq acc.id, Ev.balCheck acc.id]
    if acc.balance_cents < req.amount_cents then
      (.error (.httpExc 400 "Insufficient funds"), db1, evs1)
    else
      let balance_before := acc.balance_cents
      let accs1 := adjust_balance db1.accounts acc.id (fun b => b - req.amount_cents)
      let evs2 := evs1 ++ [Ev.debit acc.id req.amount_cents]
      let txn : TxnR :=
        { from_account_id := some acc.id, to_account_id := none
        , amount_cents := req.amount_cents
        , type := "withdrawal", status := "completed", method := req.method
        , extra_data :=
            [("balance_before", balance_before),
             ("balance_after", balance_before - req.amount_cents)] }
      (.ok (), { db1 with accounts := accs1, txns := db1.txns ++ [txn] }, evs2)

/-- `POST /deposit` (`create_deposit`): the KYC gate runs only above the
large-deposit threshold of 5000 dollars; no challenge is ever issued. The
record construction evaluates `deposit_in.extra_data` — an `AttributeError` —
so the in-session credit is rolled back and nothing commits. -/
def create_deposit (user : UserR) (req : DepositCreate) (db : DBState) :
    EndpointResult :=
  let amount_dollars : ℚ := (req.amount_cents : ℚ) / 100
  let gate : Except PyErr Unit :=
    if amount_dollars > 5000 then
      check_kyc_for_transaction user "large deposit" (some amount_dollars)
    else .ok ()
  match gate with
  | .error e => (.error e, db, [])
  | .ok _ =>
  match db.accounts.find? (fun a => a.id == req.account_id && a.user_id == user.id) with
  | none => (.error (.httpExc 404 "Account not found"), db, [])
  | some acc =>
    let balance_before := acc.balance_cents
    let accs1 := adjust_balance db.accounts acc.id (fun b => b + req.amount_cents)
    let evs1 := [Ev.credit acc.id req.amount_cents]
    match req.extra_data with
    | .error e => (.error e, db, evs1)
    | .ok md =>
      let txn : TxnR :=
        { from_account_id := none, to_account_id := some acc.id
        , amount_cents := req.amount_cents
        , type := "deposit", status := "completed", method := req.method
        , extra_data :=
            [("balance_before", balance_before),
             ("balance_after", balance_before + req.amount_cents)] ++ md.getD [] }
      (.ok (), { db with accounts := accs1, txns := db.txns ++ [txn] }, evs1)

/-- `POST /withdraw/advanced/confirm` (`confirm_advanced_withdrawal`): fee
computation happens under the lock and can itself raise (crypto account
type); the debit removes amount plus total fee; the record construction
splats `**withdraw_data.metadata`, a `TypeError` when `metadata` is `None`;
on success the record is committed as `"processing"`. -/
def confirm_advanced_withdrawal (user : UserR) (req : AdvancedWithdrawCreate)
    (otp_code : String) (now : Int) (db : DBState) : EndpointResult :=
  let amount_dollars : ℚ := (req.amount_cents : ℚ) / 100
  match check_kyc_for_transaction user "withdrawal" (some amount_dollars) with
  | .error e => (.error e, db, [])
  | .ok _ =>
  match verify_otp user.id otp_code OTPPurpose.withdrawal now db with
  | (false, db1) => (.error (.httpExc 400 "Invalid or expired OTP"), db1, [])
  | (true, db1) =>
  match db1.withdrawal_accounts.find?
      (fun w => w.id == req.account_id && w.user_id == user.id && w.is_verified) with
  | none => (.error (.httpExc 404 "Withdrawal account not found"), db1, [])
  | some wacc =>
  match db1.accounts.find? (fun a => a.user_id == user.id) with
  | none => (.error (.httpExc 404 "Account not found"), db1, [])
  | some uacc =>
    let evs1 := [Ev.lockAcq uacc.id]
    match calculate_withdrawal_fees req.amount_cents wacc.account_type with
    | .error e => (.error e, db1, evs1)
    | .ok fees =>
      let total_amount := req.amount_cents + fees.total_fee_cents
      let evs2 := evs1 ++ [Ev.balCheck uacc.id]
      if uacc.balance_cents < total_amount then
        (.error (.httpExc 400 "Insufficient funds"), db1, evs2)
      else
        let balance_before := uacc.balance_cents
        let accs1 := adjust_balance db1.accounts uacc.id (fun b => b - total_amount)
        let evs3 := evs2 ++ [Ev.debit uacc.id total_amount]
        match req.metadata with
        | none => (.error (.typeErr "argument of type NoneType is not a mapping"), db1, evs3)
        | some md =>
          let txn : TxnR :=
            { from_account_id := some uacc.id, to_account_id := none
            , amount_cents := req.amount_cents
            , type := "withdrawal", status := "processing"
            , method := wacc.provider ++ "_" ++ wacc.account_type
            , extra_data :=
                [("balance_before", balance_before),
                 ("balance_after", balance_before - total_amount),
                 ("withdrawal_account_id", (wacc.id : Int))] ++ md }
          (.ok (), { db1 with accounts := accs1, txns := db1.txns ++ [txn] }, evs3)

/-- `POST /withdraw/crypto/confirm` (`confirm_crypto_withdrawal`): address
validation, lock, crypto fee computation, debit of amount plus total fee,
record committed as `"processing"`. -/
def confirm_crypto_withdrawal (user : UserR) (req : CryptoWithdrawCreate)
    (otp_code : String) (now : Int) (db : DBState) : EndpointResult :=
  let amount_dollars : ℚ := (req.amount_cents : ℚ) / 100
  match check_kyc_for_transaction user "crypto withdrawal" (some amount_dollars) with
  | .error e => (.error e, db, [])
  | .ok _ =>
  match verify_otp user.id otp_code OTPPurpose.withdrawal now db with
  | (false, db1) => (.error (.httpExc 400 "Invalid or expired OTP"), db1, [])
  | (true, db1) =>
  if !validate_crypto_address req.wallet_address req.wallet_network then
    (.error (.httpExc 400 "Invalid cryptocurrency wallet address"), db1, [])
  else
  match db1.accounts.find? (fun a => a.user_id == user.id) with
  | none => (.error (.httpExc 404 "Account not found"), db1, [])
  | some uacc =>
    let fees := calculate_crypto_fees req.amount_cents req.cryptocurrency
    let total_amount := req.amount_cents + fees.total_fee_cents
    let evs1 := [Ev.lockAcq uacc.id, Ev.balCheck uacc.id]
    if uacc.balance_cents < total_amount then
      (.error (.httpExc 400 "Insufficient funds"), db1, evs1)
    else
      let balance_before := uacc.balance_cents
      let accs1 := adjust_balance db1.accounts uacc.id (fun b => b - total_amount)
      let evs2 := evs1 ++ [Ev.debit uacc.id total_amount]
      let txn : TxnR :=
        { from_account_id := some uacc.id, to_account_id := none
        , amount_cents := req.amount_cents
        , type := "withdrawal", status := "processing"
        , method := "crypto_" ++ req.cryptocurrency
        , extra_data :=
            [("balance_before", balance_before),
             ("balance_after", balance_before - total_amount)] }
      (.ok (), { db1 with accounts := accs1, txns := db1.txns ++ [txn] }, evs2)

/-- `internal_transfer` from src/app/services/transfers.py: the caller must
already hold both locks; check, debit, credit, append a `"completed"`
record, commit — all-or-nothing. The reference is passed in explicitly. -/
def internal_transfer (from_id to_id : Nat) (amount_cents : Int)
    (_reference : String) (_now : Int) (db : DBState) : Except String DBState :=
  let from_bal := get_balance db.accounts from_id
  if from_bal < amount_cents then .error "Insufficient funds"
  else
    let accs1 := adjust_balance db.accounts from_id (fun b => b - amount_cents)
    let accs2 := adjust_balance accs1 to_id (fun b => b + amount_cents)
    let txn : TxnR :=
      { from_account_id := some from_id, to_account_id := some to_id
      , amount_cents := amount_cents
      , type := "transfer", status := "completed", method := "internal"
      , extra_data := [] }
    .ok { db with accounts := accs2, txns := db.txns ++ [txn] }

/-! ## Derived notions used by the stated properties -/

/-- All account balances of a state are nonnegative. -/
def balances_nonneg (db : DBState) : Prop :=
  ∀ a ∈ db.accounts, 0 ≤ a.balance_cents

/-- Account identifiers are pairwise distinct (the primary-key invariant of
the `accounts` table). -/
def accounts_nodup (db : DBState) : Prop :=
  (db.accounts.map fun a => a.id).Nodup

/-- Trace discipline: every balance re-check, debit and credit happens while
a lock on the same account is held (locks are never released inside one
endpoint call, so held locks only accumulate). -/
def under_lock_from (held : List Nat) : List Ev → Bool
  | [] => true
  | .lockAcq a :: r => under_lock_from (a :: held) r
  | .balCheck a :: r => held.contains a && under_lock_from held r
  | .debit a _ :: r => held.contains a && under_lock_from held r
  | .credit a _ :: r => held.contains a && under_lock_from held r
  | .otpIssued _ _ :: r => under_lock_from held r

/-- Trace discipline starting with no lock held. -/
def under_lock (evs : List Ev) : Bool := under_lock_from [] evs

/-- A concrete committed state used by the closed instances below: two
verified users, two accounts of 100000 and 50000 minor units, one live
transfer challenge and one live withdrawal challenge for user 1, and one
verified bank withdrawal account. -/
def ex_db : DBState :=
  { users := [⟨1, "verified", none⟩, ⟨2, "verified", none⟩]
  , accounts := [⟨1, 1, "ACC1", 100000, true⟩, ⟨2, 2, "ACC2", 50000, true⟩]
  , otps := [⟨1, "111111", .transfer, false, none, 0, 600⟩,
             ⟨1, "222222", .withdrawal, false, none, 0, 600⟩,
             ⟨2, "333333", .transfer, false, none, 0, 600⟩]
  , withdrawal_accounts := [⟨7, 1, "bank", "paystack", true⟩]
  , txns := [] }

/-- The state committed by a successful transfer challenge verification of
user 1 in `ex_db`: the transfer challenge row is consumed, nothing else
changed. -/
def ex_db_t : DBState :=
  { ex_db with otps := [⟨1, "111111", .transfer, true, some 0, 0, 600⟩,
                        ⟨1, "222222", .withdrawal, false, none, 0, 600⟩,
                        ⟨2, "333333", .transfer, false, none, 0, 600⟩] }

/-- The state committed by a successful withdrawal challenge verification of
user 1 in `ex_db`. -/
def ex_db_w : DBState :=
  { ex_db with otps := [⟨1, "111111", .transfer, false, none, 0, 600⟩,
                        ⟨1, "222222", .withdrawal, true, some 0, 0, 600⟩,
                        ⟨2, "333333", .transfer, false, none, 0, 600⟩] }

/-- The state committed by a successful transfer challenge verification of
user 2 in `ex_db`. -/
def ex_db_t2 : DBState :=
  { ex_db with otps := [⟨1, "111111", .transfer, false, none, 0, 600⟩,
                        ⟨1, "222222", .withdrawal, false, none, 0, 600⟩,
                        ⟨2, "333333", .transfer, true, some 0, 0, 600⟩] }

/-- The second user as the authenticated caller. -/
def ex_user2 : UserR := ⟨2, "verified", none⟩

/-- A user whose KYC status is the enhanced tier. -/
def ex_user_enhanced : UserR := ⟨3, "enhanced", none⟩

/-- The authenticated user of the concrete scenarios. -/
def ex_user : UserR := ⟨1, "verified", none⟩

/-! ## Helper lemmas -/

theorem verify_otp_snd_accounts (uid : Nat) (code : String) (p : OTPPurpose)
    (now : Int) (db : DBState) :
    ((verify_otp uid code p now db).2).accounts = db.accounts := by
  unfold verify_otp; split <;> rfl

theorem verify_otp_snd_txns (uid : Nat) (code : String) (p : OTPPurpose)
    (now : Int) (db : DBState) :
    ((verify_otp uid code p now db).2).txns = db.txns := by
  unfold verify_otp; split <;> rfl

theorem verify_otp_false_fix (uid : Nat) (code : String) (p : OTPPurpose)
    (now : Int) (db : DBState) (h : (verify_otp uid code p now db).1 = false) :
    (verify_otp uid code p now db).2 = db := by
  unfold verify_otp at *
  split at h
  · simp at h
  · rename_i heq
    simp only [heq]

theorem balances_nonneg_adjust {accs : List AccountR} {aid : Nat} {f : Int → Int}
    (h0 : ∀ a ∈ accs, 0 ≤ a.balance_cents)
    (hf : ∀ b ∈ accs, b.id = aid → 0 ≤ f b.balance_cents) :
    ∀ a ∈ adjust_balance accs aid f, 0 ≤ a.balance_cents := by
  intro a ha
  unfold adjust_balance at ha
  rcases List.mem_map.mp ha with ⟨b, hb, rfl⟩
  by_cases hid : (b.id == aid) = true
  · simp only [hid, if_true]
    exact hf b hb (by simpa using hid)
  · simp only [hid]
    simp only [Bool.false_eq_true, if_false]
    exact h0 b hb

theorem wf_debit_commit {accs : List AccountR} {t : Int} {acc : AccountR}
    (h0 : ∀ a ∈ accs, 0 ≤ a.balance_cents)
    (hnd : (accs.map fun a => a.id).Nodup)
    (hmem : acc ∈ accs)
    (hb : ¬ acc.balance_cents < t) :
    ∀ a ∈ adjust_balance accs acc.id (fun b => b - t), 0 ≤ a.balance_cents := by
  refine balances_nonneg_adjust h0 ?_
  intro b hbmem hid
  have hba : b = acc := List.inj_on_of_nodup_map hnd hbmem hmem hid
  subst hba
  omega

theorem confirm_transfer_never_commits (user : UserR) (req : TransferCreate)
    (code : String) (now : Int) (db : DBState) :
    (∃ e, (confirm_transfer user req code now db).1 = .error e)
    ∧ (confirm_transfer user req code now db).2.1.accounts = db.accounts
    ∧ (confirm_transfer user req code now db).2.1.txns = db.txns := by
  simp only [confirm_transfer]
  cases hk : check_kyc_for_transaction user "transfer" (some ((req.amount_cents : ℚ) / 100)) with
  | error e => exact ⟨⟨e, rfl⟩, rfl, rfl⟩
  | ok u =>
    rcases hv : verify_otp user.id code OTPPurpose.transfer now db with ⟨ok1, db1⟩
    have h2 : (verify_otp user.id code OTPPurpose.transfer now db).2 = db1 := by rw [hv]
    have hacc : db1.accounts = db.accounts := by rw [← h2, verify_otp_snd_accounts]
    have htx : db1.txns = db.txns := by rw [← h2, verify_otp_snd_txns]
    cases ok1 with
    | false => exact ⟨⟨_, rfl⟩, hacc, htx⟩
    | true =>
      simp only
      cases hfrom : db1.accounts.find? (fun a => a.id == req.from_account_id && a.user_id == user.id) with
      | none => exact ⟨⟨_, rfl⟩, hacc, htx⟩
      | some fa =>
        cases hto : db1.accounts.find? (fun a => a.account_number == req.to_account_number) with
        | some ta =>
          by_cases hrb : recipient_blocked db1 user ta
          · simp only [hrb, if_true]
            exact ⟨⟨_, rfl⟩, hacc, htx⟩
          · simp only [hrb, if_false]
            by_cases hbal : fa.balance_cents < req.amount_cents
            · simp only [if_pos hbal]
              exact ⟨⟨_, rfl⟩, hacc, htx⟩
            · simp only [if_neg hbal, TransferCreate.extra_data]
              exact ⟨⟨_, rfl⟩, hacc, htx⟩
        | none =>
          by_cases hbal : fa.balance_cents < req.amount_cents
          · simp only [if_pos hbal]
            exact ⟨⟨_, rfl⟩, hacc, htx⟩
          · simp only [if_neg hbal, TransferCreate.extra_data]
            exact ⟨⟨_, rfl⟩, hacc, htx⟩

theorem create_deposit_never_commits (user : UserR) (req : DepositCreate) (db : DBState) :
    (∃ e, (create_deposit user req db).1 = .error e)
    ∧ (create_deposit user req db).2.1 = db
    ∧ issues_challenge (create_deposit user req db).2.2 = false := by
  simp only [create_deposit]
  cases hg : (if ((req.amount_cents : ℚ) / 100) > 5000 then
      check_kyc_for_transaction user "large deposit" (some ((req.amount_cents : ℚ) / 100))
    else .ok ()) with
  | error e => exact ⟨⟨e, rfl⟩, rfl, rfl⟩
  | ok u =>
    cases hfind : db.accounts.find? (fun a => a.id == req.account_id && a.user_id == user.id) with
    | none => exact ⟨⟨_, rfl⟩, rfl, rfl⟩
    | some acc =>
      simp only [DepositCreate.extra_data]
      exact ⟨⟨_, rfl⟩, by simp, by simp [issues_challenge]⟩

theorem confirm_withdrawal_wf (user : UserR) (req : WithdrawCreate) (code : String)
    (now : Int) (db : DBState) (h0 : balances_nonneg db) (hnd : accounts_nodup db) :
    balances_nonneg (confirm_withdrawal user req code now db).2.1 := by
  simp only [confirm_withdrawal]
  cases hk : check_kyc_for_transaction user "withdrawal" (some ((req.amount_cents : ℚ) / 100)) with
  | error e => simpa using h0
  | ok u =>
    rcases hv : verify_otp user.id code OTPPurpose.withdrawal now db with ⟨ok1, db1⟩
    have h2 : (verify_otp user.id code OTPPurpose.withdrawal now db).2 = db1 := by rw [hv]
    have hacc : db1.accounts = db.accounts := by rw [← h2, verify_otp_snd_accounts]
    have h0' : balances_nonneg db1 := by
      intro a ha; exact h0 a (hacc ▸ ha)
    cases ok1 with
    | false => simpa using h0'
    | true =>
      simp only
      cases hfind : db1.accounts.find? (fun a => a.id == req.account_id && a.user_id == user.id) with
      | none => simpa using h0'
      | some acc =>
        by_cases hbal : acc.balance_cents < req.amount_cents
        · simp only [if_pos hbal]
          simpa using h0'
        · simp only [if_neg hbal]
          intro a ha
          simp only at ha
          have hmem : acc ∈ db1.accounts := List.mem_of_find?_eq_some hfind
          have hnd' : (db1.accounts.map fun a => a.id).Nodup := by
            rw [hacc]; exact hnd
          exact wf_debit_commit h0' hnd' hmem hbal a ha

theorem confirm_advanced_withdrawal_wf (user : UserR) (req : AdvancedWithdrawCreate)
    (code : String) (now : Int) (db : DBState)
    (h0 : balances_nonneg db) (hnd : accounts_nodup db) :
    balances_nonneg (confirm_advanced_withdrawal user req code now db).2.1 := by
  simp only [confirm_advanced_withdrawal]
  cases hk : check_kyc_for_transaction user "withdrawal" (some ((req.amount_cents : ℚ) / 100)) with
  | error e => simpa using h0
  | ok u =>
    rcases hv : verify_otp user.id code OTPPurpose.withdrawal now db with ⟨ok1, db1⟩
    have h2 : (verify_otp user.id code OTPPurpose.withdrawal now db).2 = db1 := by rw [hv]
    have hacc : db1.accounts = db.accounts := by rw [← h2, verify_otp_snd_accounts]
    have h0' : balances_nonneg db1 := by
      intro a ha; exact h0 a (hacc ▸ ha)
    cases ok1 with
    | false => simpa using h0'
    | true =>
      simp only
      cases hw : db1.withdrawal_accounts.find?
          (fun w => w.id == req.account_id && w.user_id == user.id && w.is_verified) with
      | none => simpa using h0'
      | some wacc =>
        cases hu : db1.accounts.find? (fun a => a.user_id == user.id) with
        | none => simpa using h0'
        | some uacc =>
          cases hfees : calculate_withdrawal_fees req.amount_cents wacc.account_type with
          | error e => simp only [hfees]; simpa using h0'
          | ok fees =>
            simp only [hfees]
            by_cases hbal : uacc.balance_cents < req.amount_cents + fees.total_fee_cents
            · simp only [if_pos hbal]
              simpa using h0'
            · simp only [if_neg hbal]
              cases hmd : req.metadata with
              | none => simp only [hmd]; simpa using h0'
              | some md =>
                simp only [hmd]
                intro a ha
                simp only at ha
                have hmem : uacc ∈ db1.accounts := List.mem_of_find?_eq_some hu
                have hnd' : (db1.accounts.map fun a => a.id).Nodup := by
                  rw [hacc]; exact hnd
                exact wf_debit_commit h0' hnd' hmem hbal a ha

theorem confirm_crypto_withdrawal_wf (user : UserR) (req : CryptoWithdrawCreate)
    (code : String) (now : Int) (db : DBState)
    (h0 : balances_nonneg db) (hnd : accounts_nodup db) :
    balances_nonneg (confirm_crypto_withdrawal user req code now db).2.1 := by
  simp only [confirm_crypto_withdrawal]
  cases hk : check_kyc_for_transaction user "crypto withdrawal" (some ((req.amount_cents : ℚ) / 100)) with
  | error e => simpa using h0
  | ok u =>
    rcases hv : verify_otp user.id code OTPPurpose.withdrawal now db with ⟨ok1, db1⟩
    have h2 : (verify_otp user.id code OTPPurpose.withdrawal now db).2 = db1 := by rw [hv]
    have hacc : db1.accounts = db.accounts := by rw [← h2, verify_otp_snd_accounts]
    have h0' : balances_nonneg db1 := by
      intro a ha; exact h0 a (hacc ▸ ha)
    cases ok1 with
    | false => simpa using h0'
    | true =>
      simp only
      by_cases haddr : validate_crypto_address req.wallet_address req.wallet_network
      · simp only [haddr, Bool.not_true, Bool.false_eq_true, if_false]
        cases hu : db1.accounts.find? (fun a => a.user_id == user.id) with
        | none => simpa using h0'
        | some uacc =>
          by_cases hbal : uacc.balance_cents <
              req.amount_cents + (calculate_crypto_fees req.amount_cents req.cryptocurrency).total_fee_cents
          · simp only [if_pos hbal]
            simpa using h0'
          · simp only [if_neg hbal]
            intro a ha
            simp only at ha
            have hmem : uacc ∈ db1.accounts := List.mem_of_find?_eq_some hu
            have hnd' : (db1.accounts.map fun a => a.id).Nodup := by
              rw [hacc]; exact hnd
            exact wf_debit_commit h0' hnd' hmem hbal a ha
      · simp only [Bool.not_eq_true] at haddr
        simp only [haddr, Bool.not_false, if_true]
        simpa using h0'

theorem verify_otp_true_iff (uid : Nat) (code : String) (p : OTPPurpose)
    (now : Int) (db : DBState) :
    (verify_otp uid code p now db).1 = true ↔
      ∃ o ∈ db.otps, otp_live_match uid code p now o = true := by
  unfold verify_otp
  cases h : db.otps.find? (otp_live_match uid code p now) with
  | none =>
    simp only [List.find?_eq_none] at h
    refine ⟨fun hft => by simp at hft, ?_⟩
    rintro ⟨o, ho, hm⟩
    exact absurd hm (h o ho)
  | some o =>
    simp only [true_iff]
    exact ⟨o, List.mem_of_find?_eq_some h, List.find?_some h⟩

theorem verify_otp_marks_first (uid : Nat) (code : String) (p : OTPPurpose)
    (now : Int) (db : DBState) (h : (verify_otp uid code p now db).1 = true) :
    (verify_otp uid code p now db).2 =
      { db with otps := mark_first_used now (otp_live_match uid code p now) db.otps } := by
  unfold verify_otp at *
  cases hf : db.otps.find? (otp_live_match uid code p now) with
  | none => rw [hf] at h; simp at h
  | some o => rfl

theorem mark_kill (pred q : OTPR → Bool) (now : Int)
    (hpq : ∀ o, pred o = true → q o = true)
    (hkill : ∀ o : OTPR, pred ({ o with is_used := true, used_at := some now } : OTPR) = false) :
    ∀ l : List OTPR, l.countP q ≤ 1 →
      (mark_first_used now pred l).find? pred = none := by
  intro l
  induction l with
  | nil => intro _; rfl
  | cons o rest ih =>
    intro hcnt
    unfold mark_first_used
    by_cases hp : pred o = true
    · simp only [hp, if_true]
      have hq : q o = true := hpq o hp
      have hrest : rest.countP q = 0 := by
        rw [List.countP_cons_of_pos q rest hq] at hcnt
        omega
      rw [List.find?_cons_of_neg _ (by simp [hkill o])]
      rw [List.find?_eq_none]
      intro x hx hpx
      exact (List.countP_eq_zero.mp hrest) x hx (hpq x hpx)
    · simp only [hp]
      simp only [Bool.false_eq_true, if_false]
      rw [List.find?_cons_of_neg _ hp]
      apply ih
      rw [List.countP_cons q o rest] at hcnt
      omega

theorem verify_otp_single_use (uid : Nat) (code : String) (p : OTPPurpose)
    (now : Int) (db db1 : DBState)
    (huniq : (unused_for uid p db).length ≤ 1)
    (h1 : verify_otp uid code p now db = (true, db1)) :
    verify_otp uid code p now db1 = (false, db1) := by
  have hm : db1 = { db with otps := mark_first_used now (otp_live_match uid code p now) db.otps } := by
    have h2 := verify_otp_marks_first uid code p now db (by rw [h1])
    rw [h1] at h2
    exact h2
  have hpq : ∀ o, otp_live_match uid code p now o = true →
      (fun o => o.user_id == uid && o.purpose == p && o.is_used == false) o = true := by
    intro o ho
    unfold otp_live_match at ho
    simp only [Bool.and_eq_true] at ho ⊢
    exact ⟨⟨ho.1.1.1.1, ho.1.1.2⟩, ho.1.2⟩
  have hkill : ∀ o : OTPR,
      otp_live_match uid code p now ({ o with is_used := true, used_at := some now } : OTPR) = false := by
    intro o
    unfold otp_live_match
    simp
  have hcnt : db.otps.countP (fun o => o.user_id == uid && o.purpose == p && o.is_used == false) ≤ 1 := by
    rw [List.countP_eq_length_filter]
    exact huniq
  have hnone := mark_kill (otp_live_match uid code p now) _ now hpq hkill db.otps hcnt
  rw [hm]
  unfold verify_otp
  simp only [hnone]

theorem unused_after_invalidate (uid : Nat) (p : OTPPurpose) (l : List OTPR) :
    (l.map (invalidate_prior uid p)).filter
      (fun o => o.user_id == uid && o.purpose == p && o.is_used == false) = [] := by
  induction l with
  | nil => rfl
  | cons o rest ih =>
    simp only [List.map_cons, List.filter_cons]
    have hcond : ((invalidate_prior uid p o).user_id == uid &&
        (invalidate_prior uid p o).purpose == p &&
        (invalidate_prior uid p o).is_used == false) = false := by
      unfold invalidate_prior
      split
      · simp
      · rename_i h
        simpa using h
    simp only [hcond, Bool.false_eq_true, if_false]
    exact ih

theorem unused_for_after_generate (uid : Nat) (p : OTPPurpose) (code : String)
    (now : Int) (db : DBState) :
    unused_for uid p (generate_otp uid p code now db).2 = [fresh_otp uid p code now] := by
  unfold generate_otp unused_for
  simp only
  rw [List.filter_append, unused_after_invalidate]
  simp [fresh_otp]

theorem confirm_transfer_internal_aborts (user : UserR) (req : TransferCreate)
    (code : String) (now : Int) (db db1 : DBState) (fa ta : AccountR)
    (hk : check_kyc_for_transaction user "transfer" (some ((req.amount_cents : ℚ) / 100)) = .ok ())
    (hv : verify_otp user.id code OTPPurpose.transfer now db = (true, db1))
    (hf : db1.accounts.find? (fun a => a.id == req.from_account_id && a.user_id == user.id) = some fa)
    (ht : db1.accounts.find? (fun a => a.account_number == req.to_account_number) = some ta)
    (hrb : recipient_blocked db1 user ta = false)
    (hbal : ¬ fa.balance_cents < req.amount_cents) :
    confirm_transfer user req code now db =
      (.error (.attrErr "extra_data"), db1,
        [Ev.lockAcq (if fa.id ≤ ta.id then fa.id else ta.id),
         Ev.lockAcq (if fa.id ≤ ta.id then ta.id else fa.id),
         Ev.balCheck fa.id,
         Ev.debit fa.id req.amount_cents,
         Ev.credit ta.id req.amount_cents]) := by
  simp only [confirm_transfer, hk, hv, hf, ht, hrb, Bool.false_eq_true, if_false,
    if_neg hbal, TransferCreate.extra_data]
  rfl

theorem confirm_transfer_internal_insufficient (user : UserR) (req : TransferCreate)
    (code : String) (now : Int) (db db1 : DBState) (fa ta : AccountR)
    (hk : check_kyc_for_transaction user "transfer" (some ((req.amount_cents : ℚ) / 100)) = .ok ())
    (hv : verify_otp user.id code OTPPurpose.transfer now db = (true, db1))
    (hf : db1.accounts.find? (fun a => a.id == req.from_account_id && a.user_id == user.id) = some fa)
    (ht : db1.accounts.find? (fun a => a.account_number == req.to_account_number) = some ta)
    (hrb : recipient_blocked db1 user ta = false)
    (hbal : fa.balance_cents < req.amount_cents) :
    confirm_transfer user req code now db =
      (.error (.httpExc 400 "Insufficient funds"), db1,
        [Ev.lockAcq (if fa.id ≤ ta.id then fa.id else ta.id),
         Ev.lockAcq (if fa.id ≤ ta.id then ta.id else fa.id),
         Ev.balCheck fa.id]) := by
  simp only [confirm_transfer, hk, hv, hf, ht, hrb, Bool.false_eq_true, if_false,
    if_pos hbal]

theorem confirm_transfer_external_insufficient (user : UserR) (req : TransferCreate)
    (code : String) (now : Int) (db db1 : DBState) (fa : AccountR)
    (hk : check_kyc_for_transaction user "transfer" (some ((req.amount_cents : ℚ) / 100)) = .ok ())
    (hv : verify_otp user.id code OTPPurpose.transfer now db = (true, db1))
    (hf : db1.accounts.find? (fun a => a.id == req.from_account_id && a.user_id == user.id) = some fa)
    (ht : db1.accounts.find? (fun a => a.account_number == req.to_account_number) = none)
    (hbal : fa.balance_cents < req.amount_cents) :
    confirm_transfer user req code now db =
      (.error (.httpExc 400 "Insufficient funds"), db1, [Ev.balCheck fa.id]) := by
  simp only [confirm_transfer, hk, hv, hf, ht, if_pos hbal]

theorem confirm_transfer_external_aborts (user : UserR) (req : TransferCreate)
    (code : String) (now : Int) (db db1 : DBState) (fa : AccountR)
    (hk : check_kyc_for_transaction user "transfer" (some ((req.amount_cents : ℚ) / 100)) = .ok ())
    (hv : verify_otp user.id code OTPPurpose.transfer now db = (true, db1))
    (hf : db1.accounts.find? (fun a => a.id == req.from_account_id && a.user_id == user.id) = some fa)
    (ht : db1.accounts.find? (fun a => a.account_number == req.to_account_number) = none)
    (hbal : ¬ fa.balance_cents < req.amount_cents) :
    confirm_transfer user req code now db =
      (.error (.attrErr "extra_data"), db1,
        [Ev.balCheck fa.id, Ev.debit fa.id req.amount_cents]) := by
  simp only [confirm_transfer, hk, hv, hf, ht, if_neg hbal, TransferCreate.extra_data]
  rfl

theorem confirm_withdrawal_insufficient (user : UserR) (req : WithdrawCreate)
    (code : String) (now : Int) (db db1 : DBState) (acc : AccountR)
    (hk : check_kyc_for_transaction user "withdrawal" (some ((req.amount_cents : ℚ) / 100)) = .ok ())
    (hv : verify_otp user.id code OTPPurpose.withdrawal now db = (true, db1))
    (hf : db1.accounts.find? (fun a => a.id == req.account_id && a.user_id == user.id) = some acc)
    (hbal : acc.balance_cents < req.amount_cents) :
    confirm_withdrawal user req code now db =
      (.error (.httpExc 400 "Insufficient funds"), db1,
        [Ev.lockAcq acc.id, Ev.balCheck acc.id]) := by
  simp only [confirm_withdrawal, hk, hv, hf, if_pos hbal]

theorem confirm_withdrawal_success (user : UserR) (req : WithdrawCreate)
    (code : String) (now : Int) (db db1 : DBState) (acc : AccountR)
    (hk : check_kyc_for_transaction user "withdrawal" (some ((req.amount_cents : ℚ) / 100)) = .ok ())
    (hv : verify_otp user.id code OTPPurpose.withdrawal now db = (true, db1))
    (hf : db1.accounts.find? (fun a => a.id == req.account_id && a.user_id == user.id) = some acc)
    (hbal : ¬ acc.balance_cents < req.amount_cents) :
    confirm_withdrawal user req code now db =
      (.ok (),
        { db1 with
          accounts := adjust_balance db1.accounts acc.id (fun b => b - req.amount_cents)
          txns := db1.txns ++
            [{ from_account_id := some acc.id, to_account_id := none
             , amount_cents := req.amount_cents
             , type := "withdrawal", status := "completed", method := req.method
             , extra_data :=
                 [("balance_before", acc.balance_cents),
                  ("balance_after", acc.balance_cents - req.amount_cents)] }] },
        [Ev.lockAcq acc.id, Ev.balCheck acc.id, Ev.debit acc.id req.amount_cents]) := by
  simp only [confirm_withdrawal, hk, hv, hf, if_neg hbal]
  rfl

theorem confirm_advanced_withdrawal_success (user : UserR) (req : AdvancedWithdrawCreate)
    (code : String) (now : Int) (db db1 : DBState) (wacc : WithdrawalAccountR)
    (uacc : AccountR) (fees : FeeParts) (md : List (String × Int))
    (hk : check_kyc_for_transaction user "withdrawal" (some ((req.amount_cents : ℚ) / 100)) = .ok ())
    (hv : verify_otp user.id code OTPPurpose.withdrawal now db = (true, db1))
    (hw : db1.withdrawal_accounts.find?
      (fun w => w.id == req.account_id && w.user_id == user.id && w.is_verified) = some wacc)
    (hu : db1.accounts.find? (fun a => a.user_id == user.id) = some uacc)
    (hfees : calculate_withdrawal_fees req.amount_cents wacc.account_type = .ok fees)
    (hbal : ¬ uacc.balance_cents < req.amount_cents + fees.total_fee_cents)
    (hmd : req.metadata = some md) :
    confirm_advanced_withdrawal user req code now db =
      (.ok (),
        { db1 with
          accounts := adjust_balance db1.accounts uacc.id
            (fun b => b - (req.amount_cents + fees.total_fee_cents))
          txns := db1.txns ++
            [{ from_account_id := some uacc.id, to_account_id := none
             , amount_cents := req.amount_cents
             , type := "withdrawal", status := "processing"
             , method := wacc.provider ++ "_" ++ wacc.account_type
             , extra_data :=
                 [("balance_before", uacc.balance_cents),
                  ("balance_after", uacc.balance_cents - (req.amount_cents + fees.total_fee_cents)),
                  ("withdrawal_account_id", (wacc.id : Int))] ++ md }] },
        [Ev.lockAcq uacc.id, Ev.balCheck uacc.id,
         Ev.debit uacc.id (req.amount_cents + fees.total_fee_cents)]) := by
  simp only [confirm_advanced_withdrawal, hk, hv, hw, hu, hfees, if_neg hbal, hmd]
  rfl

theorem confirm_crypto_withdrawal_success (user : UserR) (req : CryptoWithdrawCreate)
    (code : String) (now : Int) (db db1 : DBState) (uacc : AccountR)
    (hk : check_kyc_for_transaction user "crypto withdrawal" (some ((req.amount_cents : ℚ) / 100)) = .ok ())
    (hv : verify_otp user.id code OTPPurpose.withdrawal now db = (true, db1))
    (haddr : validate_crypto_address req.wallet_address req.wallet_network = true)
    (hu : db1.accounts.find? (fun a => a.user_id == user.id) = some uacc)
    (hbal : ¬ uacc.balance_cents <
      req.amount_cents + (calculate_crypto_fees req.amount_cents req.cryptocurrency).total_fee_cents) :
    confirm_crypto_withdrawal user req code now db =
      (.ok (),
        { db1 with
          accounts := adjust_balance db1.accounts uacc.id
            (fun b => b - (req.amount_cents +
              (calculate_crypto_fees req.amount_cents req.cryptocurrency).total_fee_cents))
          txns := db1.txns ++
            [{ from_account_id := some uacc.id, to_account_id := none
             , amount_cents := req.amount_cents
             , type := "withdrawal", status := "processing"
             , method := "crypto_" ++ req.cryptocurrency
             , extra_data :=
                 [("balance_before", uacc.balance_cents),
                  ("balance_after", uacc.balance_cents - (req.amount_cents +
                    (calculate_crypto_fees req.amount_cents req.cryptocurrency).total_fee_cents))] }] },
        [Ev.lockAcq uacc.id, Ev.balCheck uacc.id,
         Ev.debit uacc.id (req.amount_cents +
           (calculate_crypto_fees req.amount_cents req.cryptocurrency).total_fee_cents)]) := by
  simp only [confirm_crypto_withdrawal, hk, hv, haddr, Bool.not_true, Bool.false_eq_true,
    if_false, hu, if_neg hbal]
  rfl

theorem confirm_transfer_enhanced_rejected (user : UserR) (req : TransferCreate)
    (code : String) (now : Int) (db : DBState)
    (hs : user.kyc_status = "enhanced") :
    confirm_transfer user req code now db =
      (.error (.httpExc 403 ("KYC verification required for transfer.")), db, []) := by
  have hk : check_kyc_for_transaction user "transfer" (some ((req.amount_cents : ℚ) / 100)) =
      .error (.httpExc 403 ("KYC verification required for transfer.")) := by
    unfold check_kyc_for_transaction verify_user_kyc kyc_error_message
    simp [hs]
  simp only [confirm_transfer, hk]

theorem confirm_transfer_lock_order (user : UserR) (req : TransferCreate)
    (code : String) (now : Int) (db : DBState) :
    List.Chain' (· ≤ ·) (lock_ids (confirm_transfer user req code now db).2.2) := by
  simp only [confirm_transfer]
  cases hk : check_kyc_for_transaction user "transfer" (some ((req.amount_cents : ℚ) / 100)) with
  | error e => simp [lock_ids]
  | ok u =>
    rcases hv : verify_otp user.id code OTPPurpose.transfer now db with ⟨ok1, db1⟩
    cases ok1 with
    | false => simp [lock_ids]
    | true =>
      simp only
      cases hfrom : db1.accounts.find? (fun a => a.id == req.from_account_id && a.user_id == user.id) with
      | none => simp [lock_ids]
      | some fa =>
        cases hto : db1.accounts.find? (fun a => a.account_number == req.to_account_number) with
        | some ta =>
          by_cases hrb : recipient_blocked db1 user ta
          · simp [hrb, lock_ids]
          · simp only [hrb, Bool.false_eq_true, if_false]
            by_cases hle : fa.id ≤ ta.id
            · by_cases hbal : fa.balance_cents < req.amount_cents
              · simp [if_pos hbal, if_pos hle, lock_ids, List.chain'_cons, hle]
              · simp [if_neg hbal, if_pos hle, TransferCreate.extra_data, lock_ids,
                  List.chain'_cons, hle]
            · have hle' : ta.id ≤ fa.id := by omega
              by_cases hbal : fa.balance_cents < req.amount_cents
              · simp [if_pos hbal, if_neg hle, lock_ids, List.chain'_cons, hle']
              · simp [if_neg hbal, if_neg hle, TransferCreate.extra_data, lock_ids,
                  List.chain'_cons, hle']
        | none =>
          by_cases hbal : fa.balance_cents < req.amount_cents
          · simp [if_pos hbal, lock_ids]
          · simp [if_neg hbal, TransferCreate.extra_data, lock_ids]

theorem confirm_transfer_internal_lock_ids (user : UserR) (req : TransferCreate)
    (code : String) (now : Int) (db db1 : DBState) (fa ta : AccountR)
    (hk : check_kyc_for_transaction user "transfer" (some ((req.amount_cents : ℚ) / 100)) = .ok ())
    (hv : verify_otp user.id code OTPPurpose.transfer now db = (true, db1))
    (hf : db1.accounts.find? (fun a => a.id == req.from_account_id && a.user_id == user.id) = some fa)
    (ht : db1.accounts.find? (fun a => a.account_number == req.to_account_number) = some ta)
    (hrb : recipient_blocked db1 user ta = false) :
    lock_ids (confirm_transfer user req code now db).2.2 =
      [min fa.id ta.id, max fa.id ta.id] := by
  by_cases hbal : fa.balance_cents < req.amount_cents
  · rw [confirm_transfer_internal_insufficient user req code now db db1 fa ta hk hv hf ht hrb hbal]
    simp [lock_ids, Nat.min_def, Nat.max_def]
  · rw [confirm_transfer_internal_aborts user req code now db db1 fa ta hk hv hf ht hrb hbal]
    simp [lock_ids, Nat.min_def, Nat.max_def]

theorem confirm_withdrawal_under_lock (user : UserR) (req : WithdrawCreate)
    (code : String) (now : Int) (db : DBState) :
    under_lock (confirm_withdrawal user req code now db).2.2 = true := by
  simp only [confirm_withdrawal]
  cases hk : check_kyc_for_transaction user "withdrawal" (some ((req.amount_cents : ℚ) / 100)) with
  | error e => rfl
  | ok u =>
    rcases hv : verify_otp user.id code OTPPurpose.withdrawal now db with ⟨ok1, db1⟩
    cases ok1 with
    | false => rfl
    | true =>
      simp only
      cases hfind : db1.accounts.find? (fun a => a.id == req.account_id && a.user_id == user.id) with
      | none => rfl
      | some acc =>
        by_cases hbal : acc.balance_cents < req.amount_cents
        · simp [if_pos hbal, under_lock, under_lock_from]
        · simp [if_neg hbal, under_lock, under_lock_from]

theorem confirm_advanced_withdrawal_under_lock (user : UserR) (req : AdvancedWithdrawCreate)
    (code : String) (now : Int) (db : DBState) :
    under_lock (confirm_advanced_withdrawal user req code now db).2.2 = true := by
  simp only [confirm_advanced_withdrawal]
  cases hk : check_kyc_for_transaction user "withdrawal" (some ((req.amount_cents : ℚ) / 100)) with
  | error e => rfl
  | ok u =>
    rcases hv : verify_otp user.id code OTPPurpose.withdrawal now db with ⟨ok1, db1⟩
    cases ok1 with
    | false => rfl
    | true =>
      simp only
      cases hw : db1.withdrawal_accounts.find?
          (fun w => w.id == req.account_id && w.user_id == user.id && w.is_verified) with
      | none => rfl
      | some wacc =>
        cases hu : db1.accounts.find? (fun a => a.user_id == user.id) with
        | none => rfl
        | some uacc =>
          cases hfees : calculate_withdrawal_fees req.amount_cents wacc.account_type with
          | error e => simp [hfees, under_lock, under_lock_from]
          | ok fees =>
            simp only [hfees]
            by_cases hbal : uacc.balance_cents < req.amount_cents + fees.total_fee_cents
            · simp [if_pos hbal, under_lock, under_lock_from]
            · simp only [if_neg hbal]
              cases hmd : req.metadata with
              | none => simp [under_lock, under_lock_from]
              | some md => simp [under_lock, under_lock_from]

theorem confirm_crypto_withdrawal_under_lock (user : UserR) (req : CryptoWithdrawCreate)
    (code : String) (now : Int) (db : DBState) :
    under_lock (confirm_crypto_withdrawal user req code now db).2.2 = true := by
  simp only [confirm_crypto_withdrawal]
  cases hk : check_kyc_for_transaction user "crypto withdrawal" (some ((req.amount_cents : ℚ) / 100)) with
  | error e => rfl
  | ok u =>
    rcases hv : verify_otp user.id code OTPPurpose.withdrawal now db with ⟨ok1, db1⟩
    cases ok1 with
    | false => rfl
    | true =>
      simp only
      by_cases haddr : validate_crypto_address req.wallet_address req.wallet_network
      · simp only [haddr, Bool.not_true, Bool.false_eq_true, if_false]
        cases hu : db1.accounts.find? (fun a => a.user_id == user.id) with
        | none => rfl
        | some uacc =>
          by_cases hbal : uacc.balance_cents <
              req.amount_cents + (calculate_crypto_fees req.amount_cents req.cryptocurrency).total_fee_cents
          · simp [if_pos hbal, under_lock, under_lock_from]
          · simp [if_neg hbal, under_lock, under_lock_from]
      · simp only [Bool.not_eq_true] at haddr
        simp only [haddr, Bool.not_false, if_true]
        rfl

theorem confirm_transfer_internal_under_lock (user : UserR) (req : TransferCreate)
    (code : String) (now : Int) (db db1 : DBState) (fa ta : AccountR)
    (hk : check_kyc_for_transaction user "transfer" (some ((req.amount_cents : ℚ) / 100)) = .ok ())
    (hv : verify_otp user.id code OTPPurpose.transfer now db = (true, db1))
    (hf : db1.accounts.find? (fun a => a.id == req.from_account_id && a.user_id == user.id) = some fa)
    (ht : db1.accounts.find? (fun a => a.account_number == req.to_account_number) = some ta)
    (hrb : recipient_blocked db1 user ta = false) :
    under_lock (confirm_transfer user req code now db).2.2 = true := by
  by_cases hbal : fa.balance_cents < req.amount_cents
  · rw [confirm_transfer_internal_insufficient user req code now db db1 fa ta hk hv hf ht hrb hbal]
    by_cases hle : fa.id ≤ ta.id
    · simp [if_pos hle, under_lock, under_lock_from]
    · simp [if_neg hle, under_lock, under_lock_from]
  · rw [confirm_transfer_internal_aborts user req code now db db1 fa ta hk hv hf ht hrb hbal]
    by_cases hle : fa.id ≤ ta.id
    · simp [if_pos hle, under_lock, under_lock_from]
    · simp [if_neg hle, under_lock, under_lock_from]

theorem cents_le_limit {n : Int} (h : n ≤ 1000000) : ((n : ℚ) / 100) ≤ 10000 := by
  rw [div_le_iff₀ (by norm_num : (0 : ℚ) < 100)]
  calc (n : ℚ) ≤ 1000000 := by exact_mod_cast h
    _ = 10000 * 100 := by norm_num

theorem cents_not_over_threshold {n : Int} (h : n ≤ 500000) :
    ¬ ((n : ℚ) / 100) > 5000 := by
  rw [not_lt, div_le_iff₀ (by norm_num : (0 : ℚ) < 100)]
  calc (n : ℚ) ≤ 500000 := by exact_mod_cast h
    _ = 5000 * 100 := by norm_num

theorem cents_over_threshold {n : Int} (h : 500000 < n) :
    ((n : ℚ) / 100) > 5000 := by
  rw [gt_iff_lt, lt_div_iff₀ (by norm_num : (0 : ℚ) < 100)]
  calc (5000 : ℚ) * 100 = 500000 := by norm_num
    _ < (n : ℚ) := by exact_mod_cast h

theorem check_kyc_ok (u : UserR) (op : String) (a : ℚ)
    (hs : u.kyc_status = "verified") (ha : a ≤ 10000) :
    check_kyc_for_transaction u op (some a) = .ok () := by
  unfold check_kyc_for_transaction verify_user_kyc transaction_limit
  simp only [hs, bne_self_eq_false, Bool.false_eq_true, if_false]
  by_cases haz : a = 0
  · simp [haz]
  · have hbne : (a != 0) = true := by simpa using haz
    simp only [hbne, if_true, beq_self_eq_true]
    rw [if_neg (not_lt.mpr ha)]

theorem check_kyc_enhanced (u : UserR) (op : String) (a : Option ℚ)
    (hs : u.kyc_status = "enhanced") :
    check_kyc_for_transaction u op a =
      .error (.httpExc 403 ("KYC verification required for " ++ op ++ ".")) := by
  unfold check_kyc_for_transaction verify_user_kyc kyc_error_message
  simp [hs]

theorem check_kyc_over_limit (u : UserR) (op : String) (a : ℚ)
    (hs : u.kyc_status = "verified") (ha0 : a ≠ 0) (ha : a > 10000) :
    check_kyc_for_transaction u op (some a) =
      .error (.httpExc 403 (limit_exceeded_detail 10000)) := by
  unfold check_kyc_for_transaction verify_user_kyc transaction_limit
  simp only [hs, bne_self_eq_false, Bool.false_eq_true, if_false]
  have hbne : (a != 0) = true := by simpa using ha0
  simp only [hbne, if_true, beq_self_eq_true]
  rw [if_pos ha]

theorem check_kyc_requirement_enhanced (u : UserR) (a : Option ℚ)
    (hs : u.kyc_status = "enhanced") :
    check_kyc_requirement u a = .error (.httpExc 403 "KYC verification required.") := by
  unfold check_kyc_requirement service_kyc_error_message
  simp [hs]

theorem check_kyc_requirement_ok (u : UserR) (a : ℚ)
    (hs : u.kyc_status = "verified") (ha : a ≤ 10000) :
    check_kyc_requirement u (some a) = .ok true := by
  unfold check_kyc_requirement service_transaction_limit
  simp only [hs, bne_self_eq_false, Bool.false_eq_true, if_false]
  by_cases haz : a = 0
  · simp [haz]
  · have hbne : (a != 0) = true := by simpa using haz
    simp only [hbne, if_true]
    simp only [show (("verified" == "pending") = false) from rfl,
      show (("verified" == "submitted") = false) from rfl,
      show (("verified" == "rejected") = false) from rfl,
      beq_self_eq_true, Bool.false_eq_true, if_false, if_true]
    rw [if_neg (not_lt.mpr ha)]

theorem check_kyc_requirement_over_limit (u : UserR) (a : ℚ)
    (hs : u.kyc_status = "verified") (ha0 : a ≠ 0) (ha : a > 10000) :
    check_kyc_requirement u (some a) =
      .error (.httpExc 403 (limit_exceeded_detail 10000)) := by
  unfold check_kyc_requirement service_transaction_limit
  simp only [hs, bne_self_eq_false, Bool.false_eq_true, if_false]
  have hbne : (a != 0) = true := by simpa using ha0
  simp only [hbne, if_true]
  simp only [show (("verified" == "pending") = false) from rfl,
    show (("verified" == "submitted") = false) from rfl,
    show (("verified" == "rejected") = false) from rfl,
    beq_self_eq_true, Bool.false_eq_true, if_false, if_true]
  rw [if_pos ha]

/-- Claim C7: the claim states that for every amount and every destination
category the fee computation terminates normally with a complete breakdown
and no category raises or reads an undefined variable. The code contradicts
it: in `calculate_withdrawal_fees` the `"crypto"` branch returns a dict that
reads the never-assigned local `fixed_fee`, so Python raises
`UnboundLocalError`; the bank and mobile-money branches and the dedicated
`calculate_crypto_fees` do return complete breakdowns, as evaluated here at
amount 200000 minor units. -/
theorem claim_C7_fee_computation :
    calculate_withdrawal_fees 200000 "crypto" = .error (.unboundLocal "fixed_fee")
    ∧ calculate_withdrawal_fees 200000 "bank" = .ok ⟨3000, 200, 3200, 3/2⟩
    ∧ calculate_withdrawal_fees 200000 "mobile_money" = .ok ⟨4000, 100, 4100, 2⟩
    ∧ calculate_crypto_fees 200000 "BTC" = ⟨4000, 1500, 5500, 2⟩ := by
  refine ⟨?_, ?_, ?_, ?_⟩
  · unfold calculate_withdrawal_fees
    rw [if_pos (by decide)]
  · unfold calculate_withdrawal_fees py_int
    rw [if_neg (by decide), if_pos (by decide)]
    norm_num
  · unfold calculate_withdrawal_fees py_int
    rw [if_neg (by decide), if_neg (by decide)]
    norm_num
  · unfold calculate_crypto_fees crypto_fee_rate get_network_fee py_int
    rw [if_pos (by decide), if_pos (by decide)]
    norm_num

/-- Claim C6 (amended): no deposit ever issues a challenge — above the
5000-dollar threshold the only additional control is the KYC gate — and no
deposit commits anything: the record construction reads
`deposit_in.extra_data` on a schema whose only such field is `metadata`, so
every call aborts with `AttributeError` and the committed state is exactly
the pre-state. -/
theorem claim_C6_deposit_no_challenge (user : UserR) (req : DepositCreate) (db : DBState) :
    issues_challenge (create_deposit user req db).2.2 = false
    ∧ (create_deposit user req db).2.1 = db
    ∧ ∃ e, (create_deposit user req db).1 = .error e := by
  obtain ⟨⟨e, he⟩, hst, hch⟩ := create_deposit_never_commits user req db
  exact ⟨hch, hst, ⟨e, he⟩⟩

/-- Claim C6, counterexample to the claim as stated: a deposit of 600100
minor units (6001 dollars, above the threshold) issues no challenge and
aborts with `AttributeError` instead of crediting; a deposit of 3000 minor
units (below the threshold) likewise never credits. -/
theorem claim_C6_counterexample :
    create_deposit ex_user ⟨1, 600100, "card", none⟩ ex_db =
      (.error (.attrErr "extra_data"), ex_db, [Ev.credit 1 600100])
    ∧ create_deposit ex_user ⟨1, 3000, "card", none⟩ ex_db =
      (.error (.attrErr "extra_data"), ex_db, [Ev.credit 1 3000])
    ∧ issues_challenge [Ev.credit 1 600100] = false := by
  refine ⟨?_, ?_, rfl⟩
  · simp only [create_deposit]
    rw [if_pos (cents_over_threshold (by decide))]
    rw [check_kyc_ok ex_user "large deposit" _ rfl (cents_le_limit (by decide))]
    rfl
  · simp only [create_deposit]
    rw [if_neg (cents_not_over_threshold (by decide))]
    rfl

/-- Claim C8: issuing a challenge for a pair (user, purpose) leaves exactly
the fresh challenge unconsumed for that pair — the new store is the old one
with every prior unconsumed challenge of the pair marked consumed plus the
fresh row — and an already-consumed challenge is never revived: the
invalidation step maps it to itself. -/
theorem claim_C8_issue_invariant (uid : Nat) (p : OTPPurpose) (code : String)
    (now : Int) (db : DBState) (o : OTPR) (ho : o ∈ db.otps) (hu : o.is_used = true) :
    unused_for uid p (generate_otp uid p code now db).2 = [fresh_otp uid p code now]
    ∧ (generate_otp uid p code now db).2.otps
        = db.otps.map (invalidate_prior uid p) ++ [fresh_otp uid p code now]
    ∧ invalidate_prior uid p o = o
    ∧ invalidate_prior uid p o ∈ (generate_otp uid p code now db).2.otps := by
  refine ⟨unused_for_after_generate uid p code now db, rfl, ?_, ?_⟩
  · unfold invalidate_prior
    rw [if_neg (by simp [hu])]
  · show _ ∈ db.otps.map (invalidate_prior uid p) ++ [fresh_otp uid p code now]
    exact List.mem_append_left _ (List.mem_map_of_mem _ ho)

/-- Claim C8, closed instance: issuing a fresh transfer challenge for user 1
in a state whose transfer challenge is already consumed. -/
theorem claim_C8_witness :
    unused_for 1 OTPPurpose.transfer (generate_otp 1 OTPPurpose.transfer "999999" 0 ex_db_t).2
      = [fresh_otp 1 OTPPurpose.transfer "999999" 0]
    ∧ invalidate_prior 1 OTPPurpose.transfer ⟨1, "111111", .transfer, true, some 0, 0, 600⟩
      = ⟨1, "111111", .transfer, true, some 0, 0, 600⟩ := by
  have h := claim_C8_issue_invariant 1 OTPPurpose.transfer "999999" 0 ex_db_t
    ⟨1, "111111", .transfer, true, some 0, 0, 600⟩ (by decide) rfl
  exact ⟨h.1, h.2.2.1⟩

/-- Claim C9: whenever the transfer confirm acquires row locks, it acquires
them in ascending account-identifier order — in every execution the acquired
lock identifiers form a nondecreasing chain, and in the internal branch the
two locks taken are exactly the smaller then the larger of the two account
identifiers, independent of transfer direction. -/
theorem claim_C9_ascending_locks :
    (∀ (user : UserR) (req : TransferCreate) (code : String) (now : Int) (db : DBState),
      List.Chain' (· ≤ ·) (lock_ids (confirm_transfer user req code now db).2.2))
    ∧ (∀ (user : UserR) (req : TransferCreate) (code : String) (now : Int)
        (db db1 : DBState) (fa ta : AccountR),
      check_kyc_for_transaction user "transfer" (some ((req.amount_cents : ℚ) / 100)) = .ok () →
      verify_otp user.id code OTPPurpose.transfer now db = (true, db1) →
      db1.accounts.find? (fun a => a.id == req.from_account_id && a.user_id == user.id) = some fa →
      db1.accounts.find? (fun a => a.account_number == req.to_account_number) = some ta →
      recipient_blocked db1 user ta = false →
      lock_ids (confirm_transfer user req code now db).2.2 = [min fa.id ta.id, max fa.id ta.id]) :=
  ⟨confirm_transfer_lock_order,
   fun user req code now db db1 fa ta hk hv hf ht hrb =>
     confirm_transfer_internal_lock_ids user req code now db db1 fa ta hk hv hf ht hrb⟩

/-- Claim C9, closed instance: the same ascending pair [1, 2] is locked for
a transfer from account 1 to account 2 and for one from account 2 to
account 1. -/
theorem claim_C9_witness :
    lock_ids (confirm_transfer ex_user ⟨1, "ACC2", none, 5000, none⟩ "111111" 0 ex_db).2.2 = [1, 2]
    ∧ lock_ids (confirm_transfer ex_user2 ⟨2, "ACC1", none, 1000, none⟩ "333333" 0 ex_db).2.2 = [1, 2] := by
  constructor
  · have h := claim_C9_ascending_locks.2 ex_user ⟨1, "ACC2", none, 5000, none⟩ "111111" 0
      ex_db ex_db_t ⟨1, 1, "ACC1", 100000, true⟩ ⟨2, 2, "ACC2", 50000, true⟩
      (check_kyc_ok _ _ _ rfl (cents_le_limit (by decide))) rfl rfl rfl rfl
    simpa using h
  · have h := claim_C9_ascending_locks.2 ex_user2 ⟨2, "ACC1", none, 1000, none⟩ "333333" 0
      ex_db ex_db_t2 ⟨2, 2, "ACC2", 50000, true⟩ ⟨1, 1, "ACC1", 100000, true⟩
      (check_kyc_ok _ _ _ rfl (cents_le_limit (by decide))) rfl rfl rfl rfl
    simpa using h

/-- Claim C10: both KYC gates reject with HTTP 403 unless the status is
exactly "verified" — in particular a user with status "enhanced" is rejected
for every amount, before any limit lookup, so the 50000-dollar enhanced
limit is unreachable — and for permitted users the effective per-transaction
ceiling is the 10000-dollar verified limit: amounts up to it pass, amounts
above it are rejected with 403. The transfer confirm endpoint rejects an
enhanced user outright. -/
theorem claim_C10_kyc_gate :
    (∀ (u : UserR) (op : String) (a : Option ℚ), u.kyc_status = "enhanced" →
      check_kyc_for_transaction u op a =
        .error (.httpExc 403 ("KYC verification required for " ++ op ++ ".")))
    ∧ (∀ (u : UserR) (a : Option ℚ), u.kyc_status = "enhanced" →
      check_kyc_requirement u a = .error (.httpExc 403 "KYC verification required."))
    ∧ (∀ (u : UserR) (op : String) (a : ℚ), u.kyc_status = "verified" → a ≤ 10000 →
      check_kyc_for_transaction u op (some a) = .ok ())
    ∧ (∀ (u : UserR) (op : String) (a : ℚ), u.kyc_status = "verified" → a ≠ 0 → a > 10000 →
      check_kyc_for_transaction u op (some a) = .error (.httpExc 403 (limit_exceeded_detail 10000)))
    ∧ (∀ (u : UserR) (a : ℚ), u.kyc_status = "verified" → a ≤ 10000 →
      check_kyc_requirement u (some a) = .ok true)
    ∧ (∀ (u : UserR) (a : ℚ), u.kyc_status = "verified" → a ≠ 0 → a > 10000 →
      check_kyc_requirement u (some a) = .error (.httpExc 403 (limit_exceeded_detail 10000)))
    ∧ (∀ (user : UserR) (req : TransferCreate) (code : String) (now : Int) (db : DBState),
      user.kyc_status = "enhanced" →
      confirm_transfer user req code now db =
        (.error (.httpExc 403 "KYC verification required for transfer."), db, [])) :=
  ⟨check_kyc_enhanced,
   check_kyc_requirement_enhanced,
   fun u op a hs ha => check_kyc_ok u op a hs ha,
   check_kyc_over_limit,
   check_kyc_requirement_ok,
   check_kyc_requirement_over_limit,
   confirm_transfer_enhanced_rejected⟩

/-- Claim C10, closed instance: an enhanced user is rejected at amount
20000 dollars (inside the enhanced table entry, outside the verified one),
a verified user passes at 50 dollars and is rejected at 20000 dollars, and
the transfer confirm rejects the enhanced user with 403. -/
theorem claim_C10_witness :
    check_kyc_for_transaction ex_user_enhanced "transfer" (some 20000) =
      .error (.httpExc 403 ("KYC verification required for " ++ "transfer" ++ "."))
    ∧ check_kyc_requirement ex_user_enhanced (some 20000) =
      .error (.httpExc 403 "KYC verification required.")
    ∧ check_kyc_for_transaction ex_user "transfer" (some 50) = .ok ()
    ∧ check_kyc_for_transaction ex_user "transfer" (some 20000) =
      .error (.httpExc 403 (limit_exceeded_detail 10000))
    ∧ check_kyc_requirement ex_user (some 50) = .ok true
    ∧ check_kyc_requirement ex_user (some 20000) =
      .error (.httpExc 403 (limit_exceeded_detail 10000))
    ∧ confirm_transfer ex_user_enhanced ⟨1, "ACC2", none, 5000, none⟩ "111111" 0 ex_db =
      (.error (.httpExc 403 "KYC verification required for transfer."), ex_db, []) :=
  ⟨claim_C10_kyc_gate.1 ex_user_enhanced "transfer" (some 20000) rfl,
   claim_C10_kyc_gate.2.1 ex_user_enhanced (some 20000) rfl,
   claim_C10_kyc_gate.2.2.1 ex_user "transfer" 50 rfl (by norm_num),
   claim_C10_kyc_gate.2.2.2.1 ex_user "transfer" 20000 rfl (by norm_num) (by norm_num),
   claim_C10_kyc_gate.2.2.2.2.1 ex_user 50 rfl (by norm_num),
   claim_C10_kyc_gate.2.2.2.2.2.1 ex_user 20000 rfl (by norm_num) (by norm_num),
   claim_C10_kyc_gate.2.2.2.2.2.2 ex_user_enhanced ⟨1, "ACC2", none, 5000, none⟩ "111111" 0 ex_db rfl⟩

/-- Claim C1: with the spec, a confirmed internal transfer should commit
balance(A) − X and balance(B) + X; the code instead always aborts. Whenever
the internal branch of the transfer confirm passes the KYC gate, the
challenge, both lookups, the recipient check and the balance re-check — the
exact conditions under which the spec says the transfer completes — the
record construction evaluates `transfer_in.extra_data`, which the schema
does not define, so the call raises `AttributeError` after the in-session
debit and credit, the session is rolled back, and the committed state (the
challenge consumption aside) is unchanged: no internal transfer ever
commits a balance change. -/
theorem claim_C1_internal_transfer_aborts (user : UserR) (req : TransferCreate)
    (code : String) (now : Int) (db db1 : DBState) (fa ta : AccountR)
    (hk : check_kyc_for_transaction user "transfer" (some ((req.amount_cents : ℚ) / 100)) = .ok ())
    (hv : verify_otp user.id code OTPPurpose.transfer now db = (true, db1))
    (hf : db1.accounts.find? (fun a => a.id == req.from_account_id && a.user_id == user.id) = some fa)
    (ht : db1.accounts.find? (fun a => a.account_number == req.to_account_number) = some ta)
    (hrb : recipient_blocked db1 user ta = false)
    (hbal : ¬ fa.balance_cents < req.amount_cents) :
    confirm_transfer user req code now db =
      (.error (.attrErr "extra_data"), db1,
        [Ev.lockAcq (if fa.id ≤ ta.id then fa.id else ta.id),
         Ev.lockAcq (if fa.id ≤ ta.id then ta.id else fa.id),
         Ev.balCheck fa.id,
         Ev.debit fa.id req.amount_cents,
         Ev.credit ta.id req.amount_cents])
    ∧ db1.accounts = db.accounts ∧ db1.txns = db.txns := by
  refine ⟨confirm_transfer_internal_aborts user req code now db db1 fa ta hk hv hf ht hrb hbal, ?_, ?_⟩
  · have h := verify_otp_snd_accounts user.id code OTPPurpose.transfer now db
    rw [hv] at h
    exact h
  · have h := verify_otp_snd_txns user.id code OTPPurpose.transfer now db
    rw [hv] at h
    exact h

/-- Claim C1, evaluation at the failing input: accounts 1 and 2 hold 100000
and 50000, user 1 confirms a transfer of 5000 to account 2 with the valid
challenge code — the call aborts with `AttributeError` and commits no
balance change and no record. -/
theorem claim_C1_witness :
    confirm_transfer ex_user ⟨1, "ACC2", none, 5000, none⟩ "111111" 0 ex_db =
      (.error (.attrErr "extra_data"), ex_db_t,
        [Ev.lockAcq 1, Ev.lockAcq 2, Ev.balCheck 1, Ev.debit 1 5000, Ev.credit 2 5000])
    ∧ ex_db_t.accounts = ex_db.accounts ∧ ex_db_t.txns = ex_db.txns := by
  have h := claim_C1_internal_transfer_aborts ex_user ⟨1, "ACC2", none, 5000, none⟩ "111111" 0
    ex_db ex_db_t ⟨1, 1, "ACC1", 100000, true⟩ ⟨2, 2, "ACC2", 50000, true⟩
    (check_kyc_ok _ _ _ rfl (cents_le_limit (by decide))) rfl rfl rfl rfl (by decide)
  exact h

/-- Claim C2: every committed post-state of the five money-movement
endpoints keeps all account balances nonnegative, for every caller-supplied
`amount_cents` (zero and negative included), given a well-formed pre-state
(nonnegative balances, distinct account identifiers). The withdrawal
confirms re-check the balance against the debited total before committing,
and the deposit and transfer confirms never commit at all. -/
theorem claim_C2_balances_nonneg (user : UserR) (reqw : WithdrawCreate)
    (reqt : TransferCreate) (reqd : DepositCreate) (reqa : AdvancedWithdrawCreate)
    (reqc : CryptoWithdrawCreate) (code : String) (now : Int) (db : DBState)
    (h0 : balances_nonneg db) (hnd : accounts_nodup db) :
    balances_nonneg (confirm_withdrawal user reqw code now db).2.1
    ∧ balances_nonneg (confirm_transfer user reqt code now db).2.1
    ∧ balances_nonneg (create_deposit user reqd db).2.1
    ∧ balances_nonneg (confirm_advanced_withdrawal user reqa code now db).2.1
    ∧ balances_nonneg (confirm_crypto_withdrawal user reqc code now db).2.1 := by
  refine ⟨confirm_withdrawal_wf user reqw code now db h0 hnd, ?_, ?_,
    confirm_advanced_withdrawal_wf user reqa code now db h0 hnd,
    confirm_crypto_withdrawal_wf user reqc code now db h0 hnd⟩
  · have h := (confirm_transfer_never_commits user reqt code now db).2.1
    intro a ha
    rw [h] at ha
    exact h0 a ha
  · have h := (create_deposit_never_commits user reqd db).2.1
    intro a ha
    rw [h] at ha
    exact h0 a ha

/-- Claim C2, closed instance on the concrete state, covering a normal
withdrawal, a transfer, a deposit, an advanced withdrawal and a crypto
withdrawal. -/
theorem claim_C2_witness :
    balances_nonneg (confirm_withdrawal ex_user ⟨1, 2000, "bank"⟩ "222222" 0 ex_db).2.1
    ∧ balances_nonneg (confirm_transfer ex_user ⟨1, "ACC2", none, 5000, none⟩ "222222" 0 ex_db).2.1
    ∧ balances_nonneg (create_deposit ex_user ⟨1, 3000, "card", none⟩ ex_db).2.1
    ∧ balances_nonneg (confirm_advanced_withdrawal ex_user ⟨10000, 7, "USD", some []⟩ "222222" 0 ex_db).2.1
    ∧ balances_nonneg (confirm_crypto_withdrawal ex_user
        ⟨10000, "ETH", "0xaaaaaaaaaaaaaaaaaaaaaaaaaaaaaaaaaaaaaaaa", "ERC20"⟩ "222222" 0 ex_db).2.1 :=
  claim_C2_balances_nonneg ex_user ⟨1, 2000, "bank"⟩ ⟨1, "ACC2", none, 5000, none⟩
    ⟨1, 3000, "card", none⟩ ⟨10000, 7, "USD", some []⟩
    ⟨10000, "ETH", "0xaaaaaaaaaaaaaaaaaaaaaaaaaaaaaaaaaaaaaaaa", "ERC20"⟩ "222222" 0 ex_db
    (by unfold balances_nonneg; decide) (by unfold accounts_nodup; decide)

/-- Claim C3: challenge verification returns true and consumes the first
matching row iff a non-consumed, non-expired challenge with an equal code
exists for the (user, purpose) pair; on false it changes nothing; under the
at-most-one-unconsumed-challenge invariant (claim C8) verification is
single-use — after a true result the same code verifies false — and a
duplicate withdrawal confirm reusing the consumed challenge is rejected
with the invalid-or-expired error and no state change. -/
theorem claim_C3_challenge_single_use (uid : Nat) (code : String) (p : OTPPurpose)
    (now : Int) (db : DBState) :
    ((verify_otp uid code p now db).1 = true ↔
      ∃ o ∈ db.otps, otp_live_match uid code p now o = true)
    ∧ ((verify_otp uid code p now db).1 = false → (verify_otp uid code p now db).2 = db)
    ∧ ((verify_otp uid code p now db).1 = true →
        (verify_otp uid code p now db).2 =
          { db with otps := mark_first_used now (otp_live_match uid code p now) db.otps })
    ∧ (∀ db1, (unused_for uid p db).length ≤ 1 →
        verify_otp uid code p now db = (true, db1) →
        verify_otp uid code p now db1 = (false, db1))
    ∧ (∀ (user : UserR) (req : WithdrawCreate) (dbx db2 : DBState),
        check_kyc_for_transaction user "withdrawal" (some ((req.amount_cents : ℚ) / 100)) = .ok () →
        verify_otp user.id code OTPPurpose.withdrawal now dbx = (false, db2) →
        confirm_withdrawal user req code now dbx =
          (.error (.httpExc 400 "Invalid or expired OTP"), db2, [])) := by
  refine ⟨verify_otp_true_iff uid code p now db,
    verify_otp_false_fix uid code p now db,
    verify_otp_marks_first uid code p now db,
    fun db1 huniq h1 => verify_otp_single_use uid code p now db db1 huniq h1,
    fun user req dbx db2 hk hv => ?_⟩
  simp only [confirm_withdrawal, hk, hv]

/-- Claim C3, closed instance: the live withdrawal challenge of user 1
verifies true; in the committed state a second verification of the same code
returns false and a duplicate confirm is rejected with the
invalid-or-expired error. -/
theorem claim_C3_witness :
    (verify_otp 1 "222222" OTPPurpose.withdrawal 0 ex_db).1 = true
    ∧ verify_otp 1 "222222" OTPPurpose.withdrawal 0 ex_db_w = (false, ex_db_w)
    ∧ confirm_withdrawal ex_user ⟨1, 2000, "bank"⟩ "222222" 0 ex_db_w =
        (.error (.httpExc 400 "Invalid or expired OTP"), ex_db_w, []) := by
  refine ⟨?_, ?_, ?_⟩
  · exact (claim_C3_challenge_single_use 1 "222222" OTPPurpose.withdrawal 0 ex_db).1.mpr
      ⟨⟨1, "222222", .withdrawal, false, none, 0, 600⟩, by decide, by decide⟩
  · exact (claim_C3_challenge_single_use 1 "222222" OTPPurpose.withdrawal 0 ex_db).2.2.2.1
      ex_db_w (by decide) rfl
  · exact (claim_C3_challenge_single_use 1 "222222" OTPPurpose.withdrawal 0 ex_db).2.2.2.2
      ex_user ⟨1, 2000, "bank"⟩ ex_db_w ex_db_w
      (check_kyc_ok _ _ _ rfl (cents_le_limit (by decide))) rfl

/-- Claim C4 (amended): every confirm path whose requested amount exceeds
the source balance at confirm time fails with the insufficient-funds error
and commits no balance change — shown for the withdrawal confirm, the
internal branch and the external branch of the transfer confirm — and the
re-check happens under the account row lock in the withdrawal, advanced
withdrawal, crypto withdrawal and internal-transfer paths, while the
external-transfer branch re-checks without acquiring any lock (the
counterexample exhibits this). -/
theorem claim_C4_confirm_recheck (code : String) (now : Int) :
    (∀ (user : UserR) (req : WithdrawCreate) (db db1 : DBState) (acc : AccountR),
      check_kyc_for_transaction user "withdrawal" (some ((req.amount_cents : ℚ) / 100)) = .ok () →
      verify_otp user.id code OTPPurpose.withdrawal now db = (true, db1) →
      db1.accounts.find? (fun a => a.id == req.account_id && a.user_id == user.id) = some acc →
      acc.balance_cents < req.amount_cents →
      confirm_withdrawal user req code now db =
        (.error (.httpExc 400 "Insufficient funds"), db1, [Ev.lockAcq acc.id, Ev.balCheck acc.id])
      ∧ db1.accounts = db.accounts)
    ∧ (∀ (user : UserR) (req : TransferCreate) (db db1 : DBState) (fa ta : AccountR),
      check_kyc_for_transaction user "transfer" (some ((req.amount_cents : ℚ) / 100)) = .ok () →
      verify_otp user.id code OTPPurpose.transfer now db = (true, db1) →
      db1.accounts.find? (fun a => a.id == req.from_account_id && a.user_id == user.id) = some fa →
      db1.accounts.find? (fun a => a.account_number == req.to_account_number) = some ta →
      recipient_blocked db1 user ta = false →
      fa.balance_cents < req.amount_cents →
      confirm_transfer user req code now db =
        (.error (.httpExc 400 "Insufficient funds"), db1,
          [Ev.lockAcq (if fa.id ≤ ta.id then fa.id else ta.id),
           Ev.lockAcq (if fa.id ≤ ta.id then ta.id else fa.id),
           Ev.balCheck fa.id])
      ∧ db1.accounts = db.accounts)
    ∧ (∀ (user : UserR) (req : TransferCreate) (db db1 : DBState) (fa : AccountR),
      check_kyc_for_transaction user "transfer" (some ((req.amount_cents : ℚ) / 100)) = .ok () →
      verify_otp user.id code OTPPurpose.transfer now db = (true, db1) →
      db1.accounts.find? (fun a => a.id == req.from_account_id && a.user_id == user.id) = some fa →
      db1.accounts.find? (fun a => a.account_number == req.to_account_number) = none →
      fa.balance_cents < req.amount_cents →
      confirm_transfer user req code now db =
        (.error (.httpExc 400 "Insufficient funds"), db1, [Ev.balCheck fa.id])
      ∧ db1.accounts = db.accounts)
    ∧ (∀ (user : UserR) (req : WithdrawCreate) (db : DBState),
      under_lock (confirm_withdrawal user req code now db).2.2 = true)
    ∧ (∀ (user : UserR) (req : AdvancedWithdrawCreate) (db : DBState),
      under_lock (confirm_advanced_withdrawal user req code now db).2.2 = true)
    ∧ (∀ (user : UserR) (req : CryptoWithdrawCreate) (db : DBState),
      under_lock (confirm_crypto_withdrawal user req code now db).2.2 = true)
    ∧ (∀ (user : UserR) (req : TransferCreate) (db db1 : DBState) (fa ta : AccountR),
      check_kyc_for_transaction user "transfer" (some ((req.amount_cents : ℚ) / 100)) = .ok () →
      verify_otp user.id code OTPPurpose.transfer now db = (true, db1) →
      db1.accounts.find? (fun a => a.id == req.from_account_id && a.user_id == user.id) = some fa →
      db1.accounts.find? (fun a => a.account_number == req.to_account_number) = some ta →
      recipient_blocked db1 user ta = false →
      under_lock (confirm_transfer user req code now db).2.2 = true) := by
  refine ⟨fun user req db db1 acc hk hv hf hbal => ⟨?_, ?_⟩,
    fun user req db db1 fa ta hk hv hf ht hrb hbal => ⟨?_, ?_⟩,
    fun user req db db1 fa hk hv hf ht hbal => ⟨?_, ?_⟩,
    fun user req db => confirm_withdrawal_under_lock user req code now db,
    fun user req db => confirm_advanced_withdrawal_under_lock user req code now db,
    fun user req db => confirm_crypto_withdrawal_under_lock user req code now db,
    fun user req db db1 fa ta hk hv hf ht hrb =>
      confirm_transfer_internal_under_lock user req code now db db1 fa ta hk hv hf ht hrb⟩
  · exact confirm_withdrawal_insufficient user req code now db db1 acc hk hv hf hbal
  · have h := verify_otp_snd_accounts user.id code OTPPurpose.withdrawal now db
    rw [hv] at h; exact h
  · exact confirm_transfer_internal_insufficient user req code now db db1 fa ta hk hv hf ht hrb hbal
  · have h := verify_otp_snd_accounts user.id code OTPPurpose.transfer now db
    rw [hv] at h; exact h
  · exact confirm_transfer_external_insufficient user req code now db db1 fa hk hv hf ht hbal
  · have h := verify_otp_snd_accounts user.id code OTPPurpose.transfer now db
    rw [hv] at h; exact h

/-- Claim C4, counterexample to the lock clause as stated: the external
branch of the transfer confirm performs its balance re-check and in-session
debit while holding no lock at all. -/
theorem claim_C4_counterexample :
    under_lock (confirm_transfer ex_user ⟨1, "EXT404", none, 5000, none⟩ "111111" 0 ex_db).2.2 = false
    ∧ (confirm_transfer ex_user ⟨1, "EXT404", none, 5000, none⟩ "111111" 0 ex_db).2.2
        = [Ev.balCheck 1, Ev.debit 1 5000] := by
  have h := confirm_transfer_external_aborts ex_user ⟨1, "EXT404", none, 5000, none⟩ "111111" 0
    ex_db ex_db_t ⟨1, 1, "ACC1", 100000, true⟩
    (check_kyc_ok _ _ _ rfl (cents_le_limit (by decide))) rfl rfl rfl (by decide)
  rw [h]
  exact ⟨rfl, rfl⟩

/-- Claim C4, closed instance: a withdrawal, an internal transfer and an
external transfer of 200000 against a balance of 100000 are all rejected
with the insufficient-funds error and no committed balance change. -/
theorem claim_C4_witness :
    (confirm_withdrawal ex_user ⟨1, 200000, "bank"⟩ "222222" 0 ex_db =
        (.error (.httpExc 400 "Insufficient funds"), ex_db_w, [Ev.lockAcq 1, Ev.balCheck 1])
      ∧ ex_db_w.accounts = ex_db.accounts)
    ∧ (confirm_transfer ex_user ⟨1, "ACC2", none, 200000, none⟩ "111111" 0 ex_db =
        (.error (.httpExc 400 "Insufficient funds"), ex_db_t,
          [Ev.lockAcq 1, Ev.lockAcq 2, Ev.balCheck 1])
      ∧ ex_db_t.accounts = ex_db.accounts)
    ∧ (confirm_transfer ex_user ⟨1, "EXT404", none, 200000, none⟩ "111111" 0 ex_db =
        (.error (.httpExc 400 "Insufficient funds"), ex_db_t, [Ev.balCheck 1])
      ∧ ex_db_t.accounts = ex_db.accounts)
    ∧ under_lock (confirm_transfer ex_user ⟨1, "ACC2", none, 5000, none⟩ "111111" 0 ex_db).2.2 = true := by
  refine ⟨?_, ?_, ?_, ?_⟩
  · exact (claim_C4_confirm_recheck "222222" 0).1 ex_user ⟨1, 200000, "bank"⟩ ex_db ex_db_w
      ⟨1, 1, "ACC1", 100000, true⟩
      (check_kyc_ok _ _ _ rfl (cents_le_limit (by decide))) rfl rfl (by decide)
  · exact (claim_C4_confirm_recheck "111111" 0).2.1 ex_user ⟨1, "ACC2", none, 200000, none⟩
      ex_db ex_db_t ⟨1, 1, "ACC1", 100000, true⟩ ⟨2, 2, "ACC2", 50000, true⟩
      (check_kyc_ok _ _ _ rfl (cents_le_limit (by decide))) rfl rfl rfl rfl (by decide)
  · exact (claim_C4_confirm_recheck "111111" 0).2.2.1 ex_user ⟨1, "EXT404", none, 200000, none⟩
      ex_db ex_db_t ⟨1, 1, "ACC1", 100000, true⟩
      (check_kyc_ok _ _ _ rfl (cents_le_limit (by decide))) rfl rfl rfl (by decide)
  · exact (claim_C4_confirm_recheck "111111" 0).2.2.2.2.2.2 ex_user ⟨1, "ACC2", none, 5000, none⟩
      ex_db ex_db_t ⟨1, 1, "ACC1", 100000, true⟩ ⟨2, 2, "ACC2", 50000, true⟩
      (check_kyc_ok _ _ _ rfl (cents_le_limit (by decide))) rfl rfl rfl rfl

/-- Claim C5 (amended): a confirmed advanced withdrawal and a confirmed
crypto withdrawal debit the amount plus the computed total fee and commit
the record with status processing; the basic withdrawal confirm debits the
bare amount with no fee and commits the record directly as completed; and
the transfer confirm — the only path that would write an external-transfer
record, with status pending and the bare amount debited — never commits
anything at all, because it aborts on the `extra_data` attribute lookup. -/
theorem claim_C5_settlement_status (code : String) (now : Int) :
    (∀ (user : UserR) (req : AdvancedWithdrawCreate) (db db1 : DBState)
        (wacc : WithdrawalAccountR) (uacc : AccountR) (fees : FeeParts) (md : List (String × Int)),
      check_kyc_for_transaction user "withdrawal" (some ((req.amount_cents : ℚ) / 100)) = .ok () →
      verify_otp user.id code OTPPurpose.withdrawal now db = (true, db1) →
      db1.withdrawal_accounts.find?
        (fun w => w.id == req.account_id && w.user_id == user.id && w.is_verified) = some wacc →
      db1.accounts.find? (fun a => a.user_id == user.id) = some uacc →
      calculate_withdrawal_fees req.amount_cents wacc.account_type = .ok fees →
      ¬ uacc.balance_cents < req.amount_cents + fees.total_fee_cents →
      req.metadata = some md →
      confirm_advanced_withdrawal user req code now db =
        (.ok (),
          { db1 with
            accounts := adjust_balance db1.accounts uacc.id
              (fun b => b - (req.amount_cents + fees.total_fee_cents))
            txns := db1.txns ++
              [{ from_account_id := some uacc.id, to_account_id := none
               , amount_cents := req.amount_cents
               , type := "withdrawal", status := "processing"
               , method := wacc.provider ++ "_" ++ wacc.account_type
               , extra_data :=
                   [("balance_before", uacc.balance_cents),
                    ("balance_after", uacc.balance_cents - (req.amount_cents + fees.total_fee_cents)),
                    ("withdrawal_account_id", (wacc.id : Int))] ++ md }] },
          [Ev.lockAcq uacc.id, Ev.balCheck uacc.id,
           Ev.debit uacc.id (req.amount_cents + fees.total_fee_cents)]))
    ∧ (∀ (user : UserR) (req : CryptoWithdrawCreate) (db db1 : DBState) (uacc : AccountR),
      check_kyc_for_transaction user "crypto withdrawal" (some ((req.amount_cents : ℚ) / 100)) = .ok () →
      verify_otp user.id code OTPPurpose.withdrawal now db = (true, db1) →
      validate_crypto_address req.wallet_address req.wallet_network = true →
      db1.accounts.find? (fun a => a.user_id == user.id) = some uacc →
      ¬ uacc.balance_cents <
        req.amount_cents + (calculate_crypto_fees req.amount_cents req.cryptocurrency).total_fee_cents →
      confirm_crypto_withdrawal user req code now db =
        (.ok (),
          { db1 with
            accounts := adjust_balance db1.accounts uacc.id
              (fun b => b - (req.amount_cents +
                (calculate_crypto_fees req.amount_cents req.cryptocurrency).total_fee_cents))
            txns := db1.txns ++
              [{ from_account_id := some uacc.id, to_account_id := none
               , amount_cents := req.amount_cents
               , type := "withdrawal", status := "processing"
               , method := "crypto_" ++ req.cryptocurrency
               , extra_data :=
                   [("balance_before", uacc.balance_cents),
                    ("balance_after", uacc.balance_cents - (req.amount_cents +
                      (calculate_crypto_fees req.amount_cents req.cryptocurrency).total_fee_cents))] }] },
          [Ev.lockAcq uacc.id, Ev.balCheck uacc.id,
           Ev.debit uacc.id (req.amount_cents +
             (calculate_crypto_fees req.amount_cents req.cryptocurrency).total_fee_cents)]))
    ∧ (∀ (user : UserR) (req : WithdrawCreate) (db db1 : DBState) (acc : AccountR),
      check_kyc_for_transaction user "withdrawal" (some ((req.amount_cents : ℚ) / 100)) = .ok () →
      verify_otp user.id code OTPPurpose.withdrawal now db = (true, db1) →
      db1.accounts.find? (fun a => a.id == req.account_id && a.user_id == user.id) = some acc →
      ¬ acc.balance_cents < req.amount_cents →
      confirm_withdrawal user req code now db =
        (.ok (),
          { db1 with
            accounts := adjust_balance db1.accounts acc.id (fun b => b - req.amount_cents)
            txns := db1.txns ++
              [{ from_account_id := some acc.id, to_account_id := none
               , amount_cents := req.amount_cents
               , type := "withdrawal", status := "completed", method := req.method
               , extra_data :=
                   [("balance_before", acc.balance_cents),
                    ("balance_after", acc.balance_cents - req.amount_cents)] }] },
          [Ev.lockAcq acc.id, Ev.balCheck acc.id, Ev.debit acc.id req.amount_cents]))
    ∧ (∀ (user : UserR) (req : TransferCreate) (db : DBState),
      (∃ e, (confirm_transfer user req code now db).1 = .error e)
      ∧ (confirm_transfer user req code now db).2.1.txns = db.txns) :=
  ⟨fun user req db db1 wacc uacc fees md hk hv hw hu hfees hbal hmd =>
     confirm_advanced_withdrawal_success user req code now db db1 wacc uacc fees md
       hk hv hw hu hfees hbal hmd,
   fun user req db db1 uacc hk hv haddr hu hbal =>
     confirm_crypto_withdrawal_success user req code now db db1 uacc hk hv haddr hu hbal,
   fun user req db db1 acc hk hv hf hbal =>
     confirm_withdrawal_success user req code now db db1 acc hk hv hf hbal,
   fun user req db =>
     ⟨(confirm_transfer_never_commits user req code now db).1,
      (confirm_transfer_never_commits user req code now db).2.2⟩⟩

/-- Claim C5, counterexample to the claim as stated: the basic withdrawal
confirm commits its record with status completed — not processing — and
debits exactly the bare amount of 2000 with no fee (the bank fee table would
have added 230). -/
theorem claim_C5_counterexample :
    (confirm_withdrawal ex_user ⟨1, 2000, "bank"⟩ "222222" 0 ex_db).2.1.txns.map
      (fun t => t.status) = ["completed"]
    ∧ (confirm_withdrawal ex_user ⟨1, 2000, "bank"⟩ "222222" 0 ex_db).2.1.accounts
      = [⟨1, 1, "ACC1", 98000, true⟩, ⟨2, 2, "ACC2", 50000, true⟩] := by
  have h := confirm_withdrawal_success ex_user ⟨1, 2000, "bank"⟩ "222222" 0 ex_db ex_db_w
    ⟨1, 1, "ACC1", 100000, true⟩
    (check_kyc_ok _ _ _ rfl (cents_le_limit (by decide))) rfl rfl (by decide)
  rw [h]
  exact ⟨rfl, rfl⟩

/-- Claim C5, closed instance: an advanced bank withdrawal of 10000 and a
crypto withdrawal of 10000 both commit with status processing, debiting
amount plus total fee (10350 and 10950 respectively). -/
theorem claim_C5_witness :
    (confirm_advanced_withdrawal ex_user ⟨10000, 7, "USD", some []⟩ "222222" 0 ex_db).2.1.txns.map
      (fun t => t.status) = ["processing"]
    ∧ (confirm_advanced_withdrawal ex_user ⟨10000, 7, "USD", some []⟩ "222222" 0 ex_db).2.1.accounts
      = [⟨1, 1, "ACC1", 89650, true⟩, ⟨2, 2, "ACC2", 50000, true⟩]
    ∧ (confirm_crypto_withdrawal ex_user
        ⟨10000, "ETH", "0xaaaaaaaaaaaaaaaaaaaaaaaaaaaaaaaaaaaaaaaa", "ERC20"⟩ "222222" 0 ex_db).2.1.txns.map
      (fun t => t.status) = ["processing"]
    ∧ (confirm_crypto_withdrawal ex_user
        ⟨10000, "ETH", "0xaaaaaaaaaaaaaaaaaaaaaaaaaaaaaaaaaaaaaaaa", "ERC20"⟩ "222222" 0 ex_db).2.1.accounts
      = [⟨1, 1, "ACC1", 89050, true⟩, ⟨2, 2, "ACC2", 50000, true⟩] := by
  have hfees : calculate_withdrawal_fees 10000 "bank" = .ok ⟨150, 200, 350, 3/2⟩ := by
    unfold calculate_withdrawal_fees py_int
    rw [if_neg (by decide), if_pos (by decide)]
    norm_num
  have hcf : calculate_crypto_fees 10000 "ETH" = ⟨150, 800, 950, 3/2⟩ := by
    unfold calculate_crypto_fees crypto_fee_rate get_network_fee py_int
    rw [if_neg (by decide), if_pos (by decide), if_neg (by decide), if_pos (by decide)]
    norm_num
  have h1 := (claim_C5_settlement_status "222222" 0).1 ex_user ⟨10000, 7, "USD", some []⟩
    ex_db ex_db_w ⟨7, 1, "bank", "paystack", true⟩ ⟨1, 1, "ACC1", 100000, true⟩
    ⟨150, 200, 350, 3/2⟩ []
    (check_kyc_ok _ _ _ rfl (cents_le_limit (by decide))) rfl rfl rfl hfees (by decide) rfl
  have h2 := (claim_C5_settlement_status "222222" 0).2.1 ex_user
    ⟨10000, "ETH", "0xaaaaaaaaaaaaaaaaaaaaaaaaaaaaaaaaaaaaaaaa", "ERC20"⟩
    ex_db ex_db_w ⟨1, 1, "ACC1", 100000, true⟩
    (check_kyc_ok _ _ _ rfl (cents_le_limit (by decide))) rfl (by decide) rfl
    (by rw [hcf]; decide)
  refine ⟨?_, ?_, ?_, ?_⟩
  · rw [h1]; rfl
  · rw [h1]; rfl
  · rw [h2]
    rw [hcf]
    rfl
  · rw [h2]
    rw [hcf]
    rfl

theorem internal_transfer_moves_funds (a b : AccountR) (x : Int) (db : DBState)
    (ref : String) (now : Int)
    (hacc : db.accounts = [a, b]) (hne : a.id ≠ b.id) (hx : x ≤ a.balance_cents) :
    ∃ db2, internal_transfer a.id b.id x ref now db = .ok db2
      ∧ get_balance db2.accounts a.id = a.balance_cents - x
      ∧ get_balance db2.accounts b.id = b.balance_cents + x
      ∧ get_balance db2.accounts a.id + get_balance db2.accounts b.id
        = a.balance_cents + b.balance_cents := by
  have hne2 : b.id ≠ a.id := Ne.symm hne
  have hget : get_balance db.accounts a.id = a.balance_cents := by
    rw [hacc]
    simp [get_balance]
  unfold internal_transfer
  rw [hget, if_neg (not_lt.mpr hx)]
  refine ⟨_, rfl, ?_, ?_, ?_⟩
  · simp [hacc, adjust_balance, get_balance, hne, hne2]
  · simp [hacc, adjust_balance, get_balance, hne, hne2]
  · simp [hacc, adjust_balance, get_balance, hne, hne2]
